import Mathlib

/-!
Verification of the rt-complexity-lens metric engine
(`src/python/rtplan_complexity/metrics.py`), shallowly embedded over ℚ.

Machine floats are modelled as exact rationals.  Python list indexing that is
always in range on the paths exercised is modelled with `List.getD`; a Python
division that can raise `ZeroDivisionError` is modelled with an `Except`-valued
division (`pyDiv`).  Python truthiness of a float / optional float is modelled
by `pyOrQ`, of an int by `pyOrNat`.
-/

namespace RTC

/-- MLC leaf positions for both banks (types.py `MLCLeafPositions`). -/
structure MLCLeafPositions where
  bank_a : List ℚ
  bank_b : List ℚ
deriving DecidableEq, Inhabited

/-- Jaw positions in mm (types.py `JawPositions`). -/
structure JawPositions where
  x1 : ℚ
  x2 : ℚ
  y1 : ℚ
  y2 : ℚ
deriving DecidableEq, Inhabited

/-- Control point data for a beam (types.py `ControlPoint`; only the fields the
metric engine reads are carried). -/
structure ControlPoint where
  index : ℕ
  gantry_angle : ℚ
  cumulative_meterset_weight : ℚ
  mlc_positions : MLCLeafPositions
  jaw_positions : JawPositions
deriving DecidableEq, Inhabited

/-- Beam data (types.py `Beam`; only the fields the metric engine reads are
carried). -/
structure Beam where
  number_of_control_points : ℕ
  control_points : List ControlPoint
  beam_dose : Option ℚ
  gantry_angle_start : ℚ
  gantry_angle_end : ℚ
  is_arc : Bool
  mlc_leaf_widths : List ℚ
  mlc_leaf_boundaries : List ℚ
  number_of_leaves : ℕ
deriving DecidableEq, Inhabited

/-- Machine delivery parameters (types.py `MachineDeliveryParams`). -/
structure MachineDeliveryParams where
  max_dose_rate : ℚ
  max_gantry_speed : ℚ
  max_mlc_speed : ℚ
deriving DecidableEq, Inhabited

/-- metrics.py `DEFAULT_MACHINE_PARAMS`. -/
def DEFAULT_MACHINE_PARAMS : MachineDeliveryParams :=
  { max_dose_rate := 600, max_gantry_speed := 48/10, max_mlc_speed := 25 }

/-- Python `a or b` on a nonnegative-int field (0 is falsy). -/
def pyOrNat (a b : ℕ) : ℕ := if a ≠ 0 then a else b

/-- Python `a or b` on an optional float (None and 0.0 are falsy). -/
def pyOrQ (a : Option ℚ) (b : ℚ) : ℚ :=
  match a with
  | none => b
  | some x => if x = 0 then b else x

/-- Python `x / d`, which raises `ZeroDivisionError` when `d = 0`. -/
def pyDiv (x d : ℚ) : Except String ℚ :=
  if d = 0 then .error "ZeroDivisionError" else .ok (x / d)

/-- metrics.py `compute_leaf_boundaries`: boundary `i` is the sum of the first
`i` widths (the loop accumulates `boundaries[i] + widths[i]`, with a 5 mm
default that is unreachable because `n ≤ len(leaf_widths)`), then the whole
stack is shifted left by half of the total width. -/
def compute_leaf_boundaries (leaf_widths : List ℚ) (num_pairs : ℕ) : List ℚ :=
  let n := min leaf_widths.length num_pairs
  let boundaries := (List.range (n + 1)).map
    (fun i => ((List.range i).map (fun j => leaf_widths.getD j 5)).sum)
  let total_width := boundaries.getD n 0
  let offset := total_width / 2
  boundaries.map (fun b => b - offset)

/-- metrics.py `get_effective_leaf_boundaries`. -/
def get_effective_leaf_boundaries (beam : Beam) : List ℚ :=
  if beam.mlc_leaf_boundaries.length > 0 then beam.mlc_leaf_boundaries
  else compute_leaf_boundaries beam.mlc_leaf_widths
    (pyOrNat beam.number_of_leaves beam.mlc_leaf_widths.length)

/-- metrics.py `determine_active_leaves`: active = within the Y-jaw opening and
gap strictly above the plan-wide minimum gap. -/
def determine_active_leaves (gaps leaf_bounds : List ℚ) (jaw_y1 jaw_y2 min_gap : ℚ) :
    List Bool :=
  (List.range gaps.length).map (fun k =>
    (decide (jaw_y1 < leaf_bounds.getD (k + 1) 0) &&
     decide (leaf_bounds.getD k 0 < jaw_y2)) &&
    decide (min_gap < gaps.getD k 0))

/-- metrics.py `calculate_area_ca`: Σ gap × Y-jaw-clipped width over active
leaves with positive gap. -/
def calculate_area_ca (bank_a bank_b leaf_bounds : List ℚ) (jaw_y1 jaw_y2 : ℚ)
    (active_mask : List Bool) : ℚ :=
  ((List.range bank_a.length).map (fun k =>
    if active_mask.getD k false then
      let gap := bank_b.getD k 0 - bank_a.getD k 0
      if gap ≤ 0 then 0
      else gap * max 0 (min (leaf_bounds.getD (k + 1) 0) jaw_y2 -
                        max (leaf_bounds.getD k 0) jaw_y1)
    else 0)).sum

/-- The list of active leaf indices of metrics.py `calculate_lsv_bank`. -/
def active_indices (positions : List ℚ) (active_mask : List Bool) : List ℕ :=
  (List.range positions.length).filter (fun i => active_mask.getD i false)

/-- The adjacent active-leaf position differences of metrics.py
`calculate_lsv_bank` (its `diffs` list). -/
def lsv_diffs (positions : List ℚ) (active_mask : List Bool) : List ℚ :=
  (List.range ((active_indices positions active_mask).length - 1)).map (fun i =>
    |positions.getD ((active_indices positions active_mask).getD (i + 1) 0) 0 -
     positions.getD ((active_indices positions active_mask).getD i 0) 0|)

/-- metrics.py `calculate_lsv_bank` (Masi per-bank formula): mean of
`1 - diff / max diff` over adjacent active-leaf position differences. -/
def calculate_lsv_bank (positions : List ℚ) (active_mask : List Bool) : ℚ :=
  if (active_indices positions active_mask).length < 2 then 1
  else if (lsv_diffs positions active_mask).foldl max 0 = 0 then 1
  else ((lsv_diffs positions active_mask).map
      (fun d => 1 - d / (lsv_diffs positions active_mask).foldl max 0)).sum /
    ((lsv_diffs positions active_mask).length : ℚ)

/-- The leaf-pair count `n` of metrics.py `calculate_aperture_area` (line 158:
`min(len(bank_a), len(bank_b), len(leaf_widths) if leaf_widths else len(bank_a))`). -/
def cpa_n (mlc : MLCLeafPositions) (leaf_widths : List ℚ) : ℕ :=
  min (min mlc.bank_a.length mlc.bank_b.length)
    (if leaf_widths.isEmpty then mlc.bank_a.length else leaf_widths.length)

/-- The width of leaf `i` with the 5 mm default (metrics.py 167). -/
def cpa_w (leaf_widths : List ℚ) (i : ℕ) : ℚ := leaf_widths.getD i 5

/-- The total leaf-stack width of metrics.py `calculate_aperture_area` (163). -/
def cpa_total_width (mlc : MLCLeafPositions) (leaf_widths : List ℚ) : ℚ :=
  ((List.range (cpa_n mlc leaf_widths)).map (cpa_w leaf_widths)).sum

/-- The top Y-boundary of leaf `i` (the running `y_pos` of metrics.py 164–170,
which starts at `-total_width / 2` and accumulates the widths). -/
def cpa_leaf_top (mlc : MLCLeafPositions) (leaf_widths : List ℚ) (i : ℕ) : ℚ :=
  -(cpa_total_width mlc leaf_widths / 2) + ((List.range i).map (cpa_w leaf_widths)).sum

/-- The Y-jaw-clipped effective width of leaf `i` (metrics.py 173). -/
def cpa_eff (mlc : MLCLeafPositions) (leaf_widths : List ℚ) (jaw : JawPositions)
    (i : ℕ) : ℚ :=
  max 0 (min (cpa_leaf_top mlc leaf_widths i + cpa_w leaf_widths i) jaw.y2 -
    max (cpa_leaf_top mlc leaf_widths i) jaw.y1)

/-- The X-jaw-clipped bank-A position of leaf `i` (metrics.py 178: the clip is
applied only when an X jaw is set, `jaw.x1 ≠ 0 or jaw.x2 ≠ 0`). -/
def cpa_a (mlc : MLCLeafPositions) (jaw : JawPositions) (i : ℕ) : ℚ :=
  if jaw.x1 ≠ 0 ∨ jaw.x2 ≠ 0 then max (mlc.bank_a.getD i 0) jaw.x1
  else mlc.bank_a.getD i 0

/-- The X-jaw-clipped bank-B position of leaf `i` (metrics.py 179). -/
def cpa_b (mlc : MLCLeafPositions) (jaw : JawPositions) (i : ℕ) : ℚ :=
  if jaw.x1 ≠ 0 ∨ jaw.x2 ≠ 0 then min (mlc.bank_b.getD i 0) jaw.x2
  else mlc.bank_b.getD i 0

/-- The area contribution of leaf `i` in metrics.py `calculate_aperture_area`
(166–184): Y-jaw clip of the leaf span, X-jaw clip of the opening when an X
jaw is set, skipping non-positive clipped dimensions. -/
def cpa_term (mlc : MLCLeafPositions) (leaf_widths : List ℚ) (jaw : JawPositions)
    (i : ℕ) : ℚ :=
  if cpa_eff mlc leaf_widths jaw i ≤ 0 then 0
  else if cpa_b mlc jaw i - cpa_a mlc jaw i ≤ 0 then 0
  else (cpa_b mlc jaw i - cpa_a mlc jaw i) * cpa_eff mlc leaf_widths jaw i

/-- metrics.py `calculate_aperture_area` (legacy per-control-point area with
full X+Y jaw clipping). -/
def calculate_aperture_area (mlc : MLCLeafPositions) (leaf_widths : List ℚ)
    (jaw : JawPositions) : ℚ :=
  if mlc.bank_a.length = 0 ∨ mlc.bank_b.length = 0 then 0
  else ((List.range (cpa_n mlc leaf_widths)).map (cpa_term mlc leaf_widths jaw)).sum

/-- metrics.py `calculate_leaf_travel`. -/
def calculate_leaf_travel (prev curr : MLCLeafPositions) : ℚ :=
  if prev.bank_a.length = 0 ∨ curr.bank_a.length = 0 then 0
  else
    ((List.range (min prev.bank_a.length curr.bank_a.length)).map (fun i =>
      |curr.bank_a.getD i 0 - prev.bank_a.getD i 0| +
      |curr.bank_b.getD i 0 - prev.bank_b.getD i 0|)).sum

/-- metrics.py `get_max_leaf_travel`. -/
def get_max_leaf_travel (prev curr : MLCLeafPositions) : ℚ :=
  if prev.bank_a.length = 0 ∨ curr.bank_a.length = 0 then 0
  else
    ((List.range (min prev.bank_a.length curr.bank_a.length)).map (fun i =>
      max |curr.bank_a.getD i 0 - prev.bank_a.getD i 0|
          |curr.bank_b.getD i 0 - prev.bank_b.getD i 0|)).foldl max 0

/-- metrics.py `ControlPointMetrics`, restricted to the two fields the
delivery-time estimator consumes. -/
structure ControlPointMetrics where
  meterset_weight : ℚ
  leaf_travel : ℚ
deriving DecidableEq, Inhabited

/-- metrics.py `calculate_control_point_metrics` (the two carried fields). -/
def calculate_control_point_metrics (current_cp : ControlPoint)
    (previous_cp : Option ControlPoint) : ControlPointMetrics :=
  { leaf_travel :=
      match previous_cp with
      | some p => calculate_leaf_travel p.mlc_positions current_cp.mlc_positions
      | none => 0
    meterset_weight := max 0 (current_cp.cumulative_meterset_weight -
      (match previous_cp with
       | some p => p.cumulative_meterset_weight
       | none => 0)) }

/-- The per-control-point metrics list built at the top of
`calculate_beam_metrics`. -/
def control_point_metrics_list (beam : Beam) : List ControlPointMetrics :=
  (List.range beam.control_points.length).map (fun i =>
    calculate_control_point_metrics (beam.control_points.getD i default)
      (if 0 < i then some (beam.control_points.getD (i - 1) default) else none))

/-! ### The CA-based core of `calculate_beam_metrics` (metrics.py 609–772)

The LSV/AAV/MCS pipeline of `calculate_beam_metrics` is embedded as a family of
functions of the beam and the control-arc index `j`; the Python lists
`ca_areas`, `ca_lsvs`, `ca_delta_mu`, … become `(List.range (n_ca beam)).map`
of the corresponding per-CA function. -/

/-- metrics.py 609: `n_pairs = beam.number_of_leaves or len(beam.mlc_leaf_widths) or 60`. -/
def n_pairs_of (beam : Beam) : ℕ :=
  pyOrNat (pyOrNat beam.number_of_leaves beam.mlc_leaf_widths.length) 60

/-- metrics.py 612: `n_ca = n_cps - 1`. -/
def n_ca (beam : Beam) : ℕ := beam.control_points.length - 1

/-- Control point `i` of a beam (in-range accesses only on the embedded paths). -/
def cp_at (beam : Beam) (i : ℕ) : ControlPoint := beam.control_points.getD i default

/-- metrics.py 624–634 (pass 1): the minimum leaf gap over every control point,
floored at 0 when negative or when there is no gap at all (`float('inf')`). -/
def plan_min_gap (beam : Beam) : ℚ :=
  let gaps := (beam.control_points.map (fun cp =>
    (List.range (min (min cp.mlc_positions.bank_a.length cp.mlc_positions.bank_b.length)
        (n_pairs_of beam))).map
      (fun k => cp.mlc_positions.bank_b.getD k 0 - cp.mlc_positions.bank_a.getD k 0))).flatten
  let m := (gaps.min?).getD 0
  if m < 0 then 0 else m

/-- metrics.py 710: the common leaf-pair count of control arc `j`. -/
def ca_n (beam : Beam) (j : ℕ) : ℕ :=
  min (min (min (cp_at beam j).mlc_positions.bank_a.length
                (cp_at beam j).mlc_positions.bank_b.length)
           (min (cp_at beam (j + 1)).mlc_positions.bank_a.length
                (cp_at beam (j + 1)).mlc_positions.bank_b.length))
      (n_pairs_of beam)

/-- metrics.py 713: bank-A midpoint position of leaf `k` at control arc `j`. -/
def ca_mid_a_at (beam : Beam) (j k : ℕ) : ℚ :=
  ((cp_at beam j).mlc_positions.bank_a.getD k 0 +
   (cp_at beam (j + 1)).mlc_positions.bank_a.getD k 0) / 2

/-- metrics.py 714: bank-B midpoint position of leaf `k` at control arc `j`. -/
def ca_mid_b_at (beam : Beam) (j k : ℕ) : ℚ :=
  ((cp_at beam j).mlc_positions.bank_b.getD k 0 +
   (cp_at beam (j + 1)).mlc_positions.bank_b.getD k 0) / 2

/-- metrics.py 713: `mid_a` as a list. -/
def ca_mid_a (beam : Beam) (j : ℕ) : List ℚ :=
  (List.range (ca_n beam j)).map (ca_mid_a_at beam j)

/-- metrics.py 714: `mid_b` as a list. -/
def ca_mid_b (beam : Beam) (j : ℕ) : List ℚ :=
  (List.range (ca_n beam j)).map (ca_mid_b_at beam j)

/-- metrics.py 715: midpoint gaps of control arc `j`. -/
def ca_gaps (beam : Beam) (j : ℕ) : List ℚ :=
  (List.range (ca_n beam j)).map (fun k => ca_mid_b_at beam j k - ca_mid_a_at beam j k)

/-- metrics.py 717: midpoint Y1 jaw of control arc `j`. -/
def ca_mid_y1 (beam : Beam) (j : ℕ) : ℚ :=
  ((cp_at beam j).jaw_positions.y1 + (cp_at beam (j + 1)).jaw_positions.y1) / 2

/-- metrics.py 718: midpoint Y2 jaw of control arc `j`. -/
def ca_mid_y2 (beam : Beam) (j : ℕ) : ℚ :=
  ((cp_at beam j).jaw_positions.y2 + (cp_at beam (j + 1)).jaw_positions.y2) / 2

/-- metrics.py 721: active mask of control arc `j`. -/
def ca_active (beam : Beam) (j : ℕ) : List Bool :=
  determine_active_leaves (ca_gaps beam j) (get_effective_leaf_boundaries beam)
    (ca_mid_y1 beam j) (ca_mid_y2 beam j) (plan_min_gap beam)

/-- metrics.py 724: aperture area of control arc `j`. -/
def ca_area (beam : Beam) (j : ℕ) : ℚ :=
  calculate_area_ca (ca_mid_a beam j) (ca_mid_b beam j)
    (get_effective_leaf_boundaries beam) (ca_mid_y1 beam j) (ca_mid_y2 beam j)
    (ca_active beam j)

/-- metrics.py 730: the Y-jaw-clipped effective width of leaf `k` at arc `j`. -/
def ca_eff_w (beam : Beam) (j k : ℕ) : ℚ :=
  max 0 (min ((get_effective_leaf_boundaries beam).getD (k + 1) 0) (ca_mid_y2 beam j) -
         max ((get_effective_leaf_boundaries beam).getD k 0) (ca_mid_y1 beam j))

/-- metrics.py 727–733: the union-aperture contribution of leaf `k` at arc `j`
(0 when the leaf is inactive or out of range). -/
def ca_contrib (beam : Beam) (j k : ℕ) : ℚ :=
  if k < ca_n beam j ∧ (ca_active beam j).getD k false then
    (ca_gaps beam j).getD k 0 * ca_eff_w beam j k
  else 0

/-- metrics.py 727–733: the running per-leaf maximum contribution after all CAs
(Python updates `per_leaf_max_contrib[k]` whenever a contribution exceeds it,
starting from 0, which is folding `max` from 0). -/
def per_leaf_max_contrib (beam : Beam) (k : ℕ) : ℚ :=
  ((List.range (n_ca beam)).map (fun j => ca_contrib beam j k)).foldl max 0

/-- metrics.py 757: the union aperture `a_max_union`. -/
def a_max_union (beam : Beam) : ℚ :=
  ((List.range (n_pairs_of beam)).map (per_leaf_max_contrib beam)).sum

/-- metrics.py 736–738: LSV of control arc `j` (product of the two banks). -/
def ca_lsv (beam : Beam) (j : ℕ) : ℚ :=
  calculate_lsv_bank (ca_mid_a beam j) (ca_active beam j) *
  calculate_lsv_bank (ca_mid_b beam j) (ca_active beam j)

/-- metrics.py 753–754: `delta_mu` of control arc `j`, floored at 0. -/
def ca_delta_mu (beam : Beam) (j : ℕ) : ℚ :=
  max 0 ((cp_at beam (j + 1)).cumulative_meterset_weight -
         (cp_at beam j).cumulative_meterset_weight)

/-- metrics.py 760: AAV of control arc `j` (0 when the union aperture is 0). -/
def ca_aav (beam : Beam) (j : ℕ) : ℚ :=
  if 0 < a_max_union beam then ca_area beam j / a_max_union beam else 0

/-- metrics.py 761: MCS of control arc `j`. -/
def ca_mcs (beam : Beam) (j : ℕ) : ℚ := ca_lsv beam j * ca_aav beam j

/-- metrics.py 764: `total_delta_mu`. -/
def total_delta_mu (beam : Beam) : ℚ :=
  ((List.range (n_ca beam)).map (ca_delta_mu beam)).sum

/-- The beam-level LSV/AAV/MCS triple produced by `calculate_beam_metrics`. -/
structure CoreMetrics where
  LSV : ℚ
  AAV : ℚ
  MCS : ℚ
deriving DecidableEq, Inhabited

/-- metrics.py 763–772: the Δ-MU-weighted aggregation of the per-CA LSV, AAV
and MCS values, with the unweighted fallback when the total delta-MU is 0 and
the `MCS = LSV * AAV` fallback form. -/
def beam_core_metrics (beam : Beam) : CoreMetrics :=
  let t := total_delta_mu beam
  if 0 < t then
    { LSV := ((List.range (n_ca beam)).map (fun j => ca_lsv beam j * ca_delta_mu beam j)).sum / t
      AAV := ((List.range (n_ca beam)).map (fun j => ca_aav beam j * ca_delta_mu beam j)).sum / t
      MCS := ((List.range (n_ca beam)).map (fun j => ca_mcs beam j * ca_delta_mu beam j)).sum / t }
  else
    let LSV := if 0 < n_ca beam
      then ((List.range (n_ca beam)).map (ca_lsv beam)).sum / (n_ca beam : ℚ) else 0
    let AAV := if 0 < n_ca beam
      then ((List.range (n_ca beam)).map (ca_aav beam)).sum / (n_ca beam : ℚ) else 0
    { LSV := LSV, AAV := AAV, MCS := LSV * AAV }

/-! ###
The delivery-time estimator (metrics.py `_estimate_beam_delivery_time`). -/

/-- The return record of the estimator (the Python function returns this as a
tuple). -/
structure DeliveryTimeResult where
  total_time : ℚ
  limiting_factor : String
  avg_dose_rate : ℚ
  avg_mlc_speed : ℚ
  mu_per_degree : Option ℚ
deriving DecidableEq, Inhabited

/-- metrics.py 533–561: the loop body of the estimator for one control-point
transition, accumulating (total, dose-rate-limited, gantry-limited,
MLC-limited) times. -/
def delivery_step (beam : Beam) (cpms : List ControlPointMetrics)
    (machine_params : MachineDeliveryParams) (beam_mu : ℚ)
    (acc : ℚ × ℚ × ℚ × ℚ) (i : ℕ) : Except String (ℚ × ℚ × ℚ × ℚ) := do
  let cp := cp_at beam i
  let prev_cp := cp_at beam (i - 1)
  let cpm := cpms.getD i default
  let segment_mu := cpm.meterset_weight * beam_mu
  let dose_rate_time ← pyDiv segment_mu (machine_params.max_dose_rate / 60)
  let gantry_time ←
    if beam.is_arc then
      pyDiv |cp.gantry_angle - prev_cp.gantry_angle| machine_params.max_gantry_speed
    else pure 0
  let mlc_time ← pyDiv (get_max_leaf_travel prev_cp.mlc_positions cp.mlc_positions)
    machine_params.max_mlc_speed
  let segment_time := max dose_rate_time (max gantry_time mlc_time)
  if gantry_time ≤ dose_rate_time ∧ mlc_time ≤ dose_rate_time then
    pure (acc.1 + segment_time, acc.2.1 + segment_time, acc.2.2.1, acc.2.2.2)
  else if mlc_time ≤ gantry_time then
    pure (acc.1 + segment_time, acc.2.1, acc.2.2.1 + segment_time, acc.2.2.2)
  else
    pure (acc.1 + segment_time, acc.2.1, acc.2.2.1, acc.2.2.2 + segment_time)

/-- metrics.py `_estimate_beam_delivery_time` after the `beam_mu` substitution
on line 531 (which is applied by `estimate_beam_delivery_time` below). -/
def estimate_delivery_aux (beam : Beam) (cpms : List ControlPointMetrics)
    (machine_params : MachineDeliveryParams) (beam_mu : ℚ) :
    Except String DeliveryTimeResult := do
  let acc ← (List.range' 1 (beam.control_points.length - 1)).foldlM
    (delivery_step beam cpms machine_params beam_mu) (0, 0, 0, 0)
  let total_time := acc.1
  let limiting_factor :=
    if acc.2.2.1 ≤ acc.2.1 ∧ acc.2.2.2 ≤ acc.2.1 then "doseRate"
    else if acc.2.2.2 ≤ acc.2.2.1 then "gantrySpeed"
    else "mlcSpeed"
  let avg_dose_rate := if 0 < total_time then beam_mu / total_time * 60 else 0
  let total_leaf_travel := (cpms.map (fun c => c.leaf_travel)).sum
  let avg_mlc_speed ←
    if 0 < total_time then do
      let per_second ← pyDiv total_leaf_travel total_time
      pyDiv per_second (beam.number_of_leaves : ℚ)
    else pure 0
  let mu_per_degree : Option ℚ :=
    if beam.is_arc then
      if 0 < |beam.gantry_angle_end - beam.gantry_angle_start|
      then some (beam_mu / |beam.gantry_angle_end - beam.gantry_angle_start|)
      else none
    else none
  pure { total_time := total_time, limiting_factor := limiting_factor,
         avg_dose_rate := avg_dose_rate, avg_mlc_speed := avg_mlc_speed,
         mu_per_degree := mu_per_degree }

/-- metrics.py `_estimate_beam_delivery_time`: line 531 substitutes
`beam_mu = beam.beam_dose or 100.0` before anything else. -/
def estimate_beam_delivery_time (beam : Beam) (cpms : List ControlPointMetrics)
    (machine_params : MachineDeliveryParams) : Except String DeliveryTimeResult :=
  estimate_delivery_aux beam cpms machine_params (pyOrQ beam.beam_dose 100)

/-! ### Concrete inputs used by the counterexamples and witnesses -/

/-- A static beam with three leaf pairs, three control points whose cumulative
meterset weights are all 0 (so the total delta-MU is 0), and two control arcs
with different per-CA LSV and AAV values. -/
def beamC2 : Beam :=
  { number_of_control_points := 3
    control_points :=
      [{ index := 0, gantry_angle := 0, cumulative_meterset_weight := 0,
         mlc_positions := { bank_a := [0, 0, 0], bank_b := [10, 10, 0] },
         jaw_positions := { x1 := 0, x2 := 0, y1 := -15, y2 := 15 } },
       { index := 1, gantry_angle := 0, cumulative_meterset_weight := 0,
         mlc_positions := { bank_a := [0, 0, 0], bank_b := [10, 10, 0] },
         jaw_positions := { x1 := 0, x2 := 0, y1 := -15, y2 := 15 } },
       { index := 2, gantry_angle := 0, cumulative_meterset_weight := 0,
         mlc_positions := { bank_a := [0, 20, 0], bank_b := [10, 40, 0] },
         jaw_positions := { x1 := 0, x2 := 0, y1 := -15, y2 := 15 } }]
    beam_dose := some 100
    gantry_angle_start := 0
    gantry_angle_end := 0
    is_arc := false
    mlc_leaf_widths := [10, 10, 10]
    mlc_leaf_boundaries := []
    number_of_leaves := 3 }

/-- A two-control-point beam whose bank positions are identical at both control
points and whose active leaves sit at identical positions within each bank. -/
def beamC9w : Beam :=
  { number_of_control_points := 2
    control_points :=
      [{ index := 0, gantry_angle := 0, cumulative_meterset_weight := 0,
         mlc_positions := { bank_a := [0, 0, 0], bank_b := [10, 10, 0] },
         jaw_positions := { x1 := 0, x2 := 0, y1 := -15, y2 := 15 } },
       { index := 1, gantry_angle := 0, cumulative_meterset_weight := 1,
         mlc_positions := { bank_a := [0, 0, 0], bank_b := [10, 10, 0] },
         jaw_positions := { x1 := 0, x2 := 0, y1 := -15, y2 := 15 } }]
    beam_dose := some 100
    gantry_angle_start := 0
    gantry_angle_end := 0
    is_arc := false
    mlc_leaf_widths := [10, 10, 10]
    mlc_leaf_boundaries := []
    number_of_leaves := 3 }

/-- A two-control-point beam whose bank positions are identical at both control
points but whose two active leaf pairs sit at different positions, so the Masi
per-bank LSV is 0, not 1. -/
def beamC9c : Beam :=
  { number_of_control_points := 2
    control_points :=
      [{ index := 0, gantry_angle := 0, cumulative_meterset_weight := 0,
         mlc_positions := { bank_a := [-10, -20, -30], bank_b := [-5, 20, 30] },
         jaw_positions := { x1 := 0, x2 := 0, y1 := -15, y2 := 15 } },
       { index := 1, gantry_angle := 0, cumulative_meterset_weight := 1,
         mlc_positions := { bank_a := [-10, -20, -30], bank_b := [-5, 20, 30] },
         jaw_positions := { x1 := 0, x2 := 0, y1 := -15, y2 := 15 } }]
    beam_dose := some 100
    gantry_angle_start := 0
    gantry_angle_end := 0
    is_arc := false
    mlc_leaf_widths := [10, 10, 10]
    mlc_leaf_boundaries := []
    number_of_leaves := 3 }

/-- A single-control-point static beam. -/
def beamC3 : Beam :=
  { number_of_control_points := 1
    control_points :=
      [{ index := 0, gantry_angle := 0, cumulative_meterset_weight := 1,
         mlc_positions := { bank_a := [-10], bank_b := [10] },
         jaw_positions := { x1 := -20, x2 := 20, y1 := -10, y2 := 10 } }]
    beam_dose := some 100
    gantry_angle_start := 0
    gantry_angle_end := 0
    is_arc := false
    mlc_leaf_widths := [20]
    mlc_leaf_boundaries := []
    number_of_leaves := 1 }

/-- A two-control-point static beam with unset beam MU (`beam_dose = None`). -/
def beamC5 : Beam :=
  { number_of_control_points := 2
    control_points :=
      [{ index := 0, gantry_angle := 0, cumulative_meterset_weight := 0,
         mlc_positions := { bank_a := [-10], bank_b := [10] },
         jaw_positions := { x1 := -20, x2 := 20, y1 := -10, y2 := 10 } },
       { index := 1, gantry_angle := 0, cumulative_meterset_weight := 1,
         mlc_positions := { bank_a := [-10], bank_b := [10] },
         jaw_positions := { x1 := -20, x2 := 20, y1 := -10, y2 := 10 } }]
    beam_dose := none
    gantry_angle_start := 0
    gantry_angle_end := 0
    is_arc := false
    mlc_leaf_widths := [20]
    mlc_leaf_boundaries := []
    number_of_leaves := 1 }

/-- The same two-control-point beam as `beamC5` but with `number_of_leaves = 0`
and a set beam MU. -/
def beamC4 : Beam :=
  { number_of_control_points := 2
    control_points :=
      [{ index := 0, gantry_angle := 0, cumulative_meterset_weight := 0,
         mlc_positions := { bank_a := [-10], bank_b := [10] },
         jaw_positions := { x1 := -20, x2 := 20, y1 := -10, y2 := 10 } },
       { index := 1, gantry_angle := 0, cumulative_meterset_weight := 1,
         mlc_positions := { bank_a := [-10], bank_b := [10] },
         jaw_positions := { x1 := -20, x2 := 20, y1 := -10, y2 := 10 } }]
    beam_dose := some 100
    gantry_angle_start := 0
    gantry_angle_end := 0
    is_arc := false
    mlc_leaf_widths := [20]
    mlc_leaf_boundaries := []
    number_of_leaves := 0 }

/-- A beam with an empty leaf-width list, no stored boundaries and 60 declared
leaf pairs. -/
def beamC8 : Beam :=
  { number_of_control_points := 0
    control_points := []
    beam_dose := none
    gantry_angle_start := 0
    gantry_angle_end := 0
    is_arc := false
    mlc_leaf_widths := []
    mlc_leaf_boundaries := []
    number_of_leaves := 60 }

/-! ### General list lemmas -/

lemma getD_range_map {α : Type} (f : ℕ → α) (d : α) {k n : ℕ} (h : k < n) :
    ((List.range n).map f).getD k d = f k := by
  rw [List.getD_eq_getElem?_getD, List.getElem?_map, List.getElem?_range h]
  rfl

lemma sum_range_map (f : ℕ → ℚ) (n : ℕ) :
    ((List.range n).map f).sum = ∑ i ∈ Finset.range n, f i := by
  induction n with
  | zero => simp
  | succ n ih =>
      rw [List.range_succ, List.map_append, List.sum_append, Finset.sum_range_succ, ih]
      simp

lemma le_foldl_max (l : List ℚ) (a : ℚ) : a ≤ l.foldl max a := by
  induction l generalizing a with
  | nil => simp
  | cons x xs ih => exact le_trans (le_max_left a x) (ih (max a x))

lemma mem_le_foldl_max {x : ℚ} {l : List ℚ} (a : ℚ) (hx : x ∈ l) :
    x ≤ l.foldl max a := by
  induction l generalizing a with
  | nil => cases hx
  | cons y ys ih =>
      rw [List.foldl_cons]
      rcases List.mem_cons.mp hx with h | h
      · subst h
        exact le_trans (le_max_right a x) (le_foldl_max ys (max a x))
      · exact ih (max a y) h

lemma foldl_max_le {c : ℚ} {l : List ℚ} {a : ℚ} (ha : a ≤ c)
    (h : ∀ x ∈ l, x ≤ c) : l.foldl max a ≤ c := by
  induction l generalizing a with
  | nil => exact ha
  | cons y ys ih =>
      rw [List.foldl_cons]
      exact ih (max_le ha (h y (List.mem_cons_self y ys)))
        fun x hx => h x (List.mem_cons_of_mem y hx)

lemma sum_getD_range (l : List ℚ) (d : ℚ) :
    ((List.range l.length).map (fun i => l.getD i d)).sum = l.sum := by
  induction l with
  | nil => simp
  | cons x xs ih =>
      rw [List.length_cons, sum_range_map, Finset.sum_range_succ', List.sum_cons]
      simp only [List.getD_cons_succ, List.getD_cons_zero]
      rw [← sum_range_map, ih, add_comm]

/-! ### Range of the per-bank LSV -/

lemma lsv_diffs_nonneg (positions : List ℚ) (active_mask : List Bool) :
    ∀ d ∈ lsv_diffs positions active_mask, 0 ≤ d := by
  intro d hd
  obtain ⟨i, _, rfl⟩ := List.mem_map.mp hd
  exact abs_nonneg _

lemma calculate_lsv_bank_mem (positions : List ℚ) (active_mask : List Bool) :
    0 ≤ calculate_lsv_bank positions active_mask ∧
      calculate_lsv_bank positions active_mask ≤ 1 := by
  rw [calculate_lsv_bank]
  split_ifs with h1 h2
  · norm_num
  · norm_num
  · set diffs := lsv_diffs positions active_mask with hdiffs
    have hmax0 : (0 : ℚ) ≤ diffs.foldl max 0 := le_foldl_max diffs 0
    have hmaxpos : (0 : ℚ) < diffs.foldl max 0 := lt_of_le_of_ne hmax0 (Ne.symm h2)
    have hterm : ∀ t ∈ diffs.map (fun d => 1 - d / diffs.foldl max 0),
        0 ≤ t ∧ t ≤ 1 := by
      intro t ht
      obtain ⟨d, hd, rfl⟩ := List.mem_map.mp ht
      constructor
      · have : d / diffs.foldl max 0 ≤ 1 :=
          (div_le_one hmaxpos).mpr (mem_le_foldl_max 0 hd)
        linarith
      · have : 0 ≤ d / diffs.foldl max 0 :=
          div_nonneg (lsv_diffs_nonneg positions active_mask d hd) hmax0
        linarith
    have hlenpos : 0 < diffs.length := by
      rw [hdiffs, lsv_diffs]
      simp only [List.length_map, List.length_range]
      omega
    have hlenQ : (0 : ℚ) < (diffs.length : ℚ) := by exact_mod_cast hlenpos
    have hsum0 : 0 ≤ (diffs.map (fun d => 1 - d / diffs.foldl max 0)).sum :=
      List.sum_nonneg fun t ht => (hterm t ht).1
    have hsum1 : (diffs.map (fun d => 1 - d / diffs.foldl max 0)).sum ≤
        (diffs.map (fun d => 1 - d / diffs.foldl max 0)).length • (1 : ℚ) :=
      List.sum_le_card_nsmul _ 1 (fun t ht => (hterm t ht).2)
    constructor
    · exact div_nonneg hsum0 hlenQ.le
    · rw [div_le_one hlenQ]
      calc (diffs.map (fun d => 1 - d / diffs.foldl max 0)).sum
          ≤ (diffs.map (fun d => 1 - d / diffs.foldl max 0)).length • (1 : ℚ) := hsum1
        _ = (diffs.length : ℚ) := by simp

lemma calculate_lsv_bank_eq_one (positions : List ℚ) (active_mask : List Bool)
    (h : (active_indices positions active_mask).length < 2 ∨
      (∀ i ∈ active_indices positions active_mask,
       ∀ j ∈ active_indices positions active_mask,
         positions.getD i 0 = positions.getD j 0)) :
    calculate_lsv_bank positions active_mask = 1 := by
  rw [calculate_lsv_bank]
  by_cases h1 : (active_indices positions active_mask).length < 2
  · simp [h1]
  · rcases h with h | huni
    · exact absurd h h1
    have hzero : ∀ d ∈ lsv_diffs positions active_mask, d = 0 := by
      intro d hd
      obtain ⟨i, hi, rfl⟩ := List.mem_map.mp hd
      rw [List.mem_range] at hi
      have hi1 : i + 1 < (active_indices positions active_mask).length := by omega
      have hi0 : i < (active_indices positions active_mask).length := by omega
      have hm1 : (active_indices positions active_mask).getD (i + 1) 0 ∈
          active_indices positions active_mask := by
        rw [List.getD_eq_getElem _ _ hi1]
        exact List.getElem_mem hi1
      have hm0 : (active_indices positions active_mask).getD i 0 ∈
          active_indices positions active_mask := by
        rw [List.getD_eq_getElem _ _ hi0]
        exact List.getElem_mem hi0
      rw [huni _ hm1 _ hm0]
      simp
    have hfold : (lsv_diffs positions active_mask).foldl max 0 = 0 :=
      le_antisymm (foldl_max_le le_rfl fun x hx => le_of_eq (hzero x hx))
        (le_foldl_max _ 0)
    simp [h1, hfold]

/-! ### Bounds on the per-CA quantities -/

/-- The summand of `calculate_area_ca` at leaf `k` of control arc `j`. -/
def ca_area_term (beam : Beam) (j k : ℕ) : ℚ :=
  if (ca_active beam j).getD k false then
    if ca_mid_b_at beam j k - ca_mid_a_at beam j k ≤ 0 then 0
    else (ca_mid_b_at beam j k - ca_mid_a_at beam j k) * ca_eff_w beam j k
  else 0

lemma ca_area_eq (beam : Beam) (j : ℕ) :
    ca_area beam j = ∑ k ∈ Finset.range (ca_n beam j), ca_area_term beam j k := by
  rw [ca_area, calculate_area_ca]
  simp only [ca_mid_a, ca_mid_b, List.length_map, List.length_range, sum_range_map]
  refine Finset.sum_congr rfl ?_
  intro k hk
  rw [Finset.mem_range] at hk
  rw [getD_range_map _ _ hk, getD_range_map _ _ hk]
  rfl

lemma ca_gaps_getD (beam : Beam) {j k : ℕ} (hk : k < ca_n beam j) :
    (ca_gaps beam j).getD k 0 = ca_mid_b_at beam j k - ca_mid_a_at beam j k := by
  rw [ca_gaps, getD_range_map _ _ hk]

lemma ca_area_term_nonneg (beam : Beam) (j k : ℕ) : 0 ≤ ca_area_term beam j k := by
  rw [ca_area_term]
  split_ifs with h1 h2
  · exact le_rfl
  · exact mul_nonneg (le_of_lt (not_le.mp h2)) (le_max_left 0 _)
  · exact le_rfl

lemma per_leaf_max_contrib_nonneg (beam : Beam) (k : ℕ) :
    0 ≤ per_leaf_max_contrib beam k := le_foldl_max _ 0

lemma ca_area_term_le_max_contrib (beam : Beam) {j : ℕ} (hj : j < n_ca beam)
    {k : ℕ} (hk : k < ca_n beam j) :
    ca_area_term beam j k ≤ per_leaf_max_contrib beam k := by
  rw [ca_area_term]
  split_ifs with h1 h2
  · exact per_leaf_max_contrib_nonneg beam k
  · have hc : ca_contrib beam j k =
        (ca_mid_b_at beam j k - ca_mid_a_at beam j k) * ca_eff_w beam j k := by
      rw [ca_contrib, if_pos ⟨hk, h1⟩, ca_gaps_getD beam hk]
    have hmem : ca_contrib beam j k ∈
        (List.range (n_ca beam)).map (fun j' => ca_contrib beam j' k) :=
      List.mem_map.mpr ⟨j, List.mem_range.mpr hj, rfl⟩
    rw [← hc]
    exact mem_le_foldl_max 0 hmem
  · exact per_leaf_max_contrib_nonneg beam k

lemma ca_area_nonneg (beam : Beam) (j : ℕ) : 0 ≤ ca_area beam j := by
  rw [ca_area_eq]
  exact Finset.sum_nonneg fun k _ => ca_area_term_nonneg beam j k

lemma ca_n_le_n_pairs (beam : Beam) (j : ℕ) : ca_n beam j ≤ n_pairs_of beam :=
  min_le_right _ _

lemma a_max_union_eq (beam : Beam) :
    a_max_union beam = ∑ k ∈ Finset.range (n_pairs_of beam), per_leaf_max_contrib beam k := by
  rw [a_max_union, sum_range_map]

lemma ca_area_le_a_max (beam : Beam) {j : ℕ} (hj : j < n_ca beam) :
    ca_area beam j ≤ a_max_union beam := by
  rw [ca_area_eq, a_max_union_eq]
  calc ∑ k ∈ Finset.range (ca_n beam j), ca_area_term beam j k
      ≤ ∑ k ∈ Finset.range (ca_n beam j), per_leaf_max_contrib beam k :=
        Finset.sum_le_sum fun k hk =>
          ca_area_term_le_max_contrib beam hj (Finset.mem_range.mp hk)
    _ ≤ ∑ k ∈ Finset.range (n_pairs_of beam), per_leaf_max_contrib beam k :=
        Finset.sum_le_sum_of_subset_of_nonneg
          (Finset.range_subset.mpr (ca_n_le_n_pairs beam j))
          (fun k _ _ => per_leaf_max_contrib_nonneg beam k)

lemma ca_aav_mem (beam : Beam) {j : ℕ} (hj : j < n_ca beam) :
    0 ≤ ca_aav beam j ∧ ca_aav beam j ≤ 1 := by
  rw [ca_aav]
  split_ifs with h
  · exact ⟨div_nonneg (ca_area_nonneg beam j) h.le,
      (div_le_one h).mpr (ca_area_le_a_max beam hj)⟩
  · norm_num

lemma ca_lsv_mem (beam : Beam) (j : ℕ) :
    0 ≤ ca_lsv beam j ∧ ca_lsv beam j ≤ 1 := by
  obtain ⟨ha0, ha1⟩ := calculate_lsv_bank_mem (ca_mid_a beam j) (ca_active beam j)
  obtain ⟨hb0, hb1⟩ := calculate_lsv_bank_mem (ca_mid_b beam j) (ca_active beam j)
  exact ⟨mul_nonneg ha0 hb0, mul_le_one₀ ha1 hb0 hb1⟩

lemma ca_mcs_mem (beam : Beam) {j : ℕ} (hj : j < n_ca beam) :
    0 ≤ ca_mcs beam j ∧ ca_mcs beam j ≤ 1 := by
  obtain ⟨hl0, hl1⟩ := ca_lsv_mem beam j
  obtain ⟨ha0, ha1⟩ := ca_aav_mem beam hj
  exact ⟨mul_nonneg hl0 ha0, mul_le_one₀ hl1 ha0 ha1⟩

lemma ca_delta_mu_nonneg (beam : Beam) (j : ℕ) : 0 ≤ ca_delta_mu beam j :=
  le_max_left 0 _

/-- The mean of `n` values in `[0, 1]` lies in `[0, 1]`. -/
lemma mean_mem_unit {n : ℕ} (hn : 0 < n) (v : ℕ → ℚ)
    (hv : ∀ j < n, 0 ≤ v j ∧ v j ≤ 1) :
    0 ≤ (∑ j ∈ Finset.range n, v j) / (n : ℚ) ∧
      (∑ j ∈ Finset.range n, v j) / (n : ℚ) ≤ 1 := by
  have hnQ : (0 : ℚ) < (n : ℚ) := by exact_mod_cast hn
  constructor
  · exact div_nonneg (Finset.sum_nonneg fun j hj =>
      (hv j (Finset.mem_range.mp hj)).1) hnQ.le
  · rw [div_le_one hnQ]
    calc ∑ j ∈ Finset.range n, v j ≤ ∑ _j ∈ Finset.range n, (1 : ℚ) :=
          Finset.sum_le_sum fun j hj => (hv j (Finset.mem_range.mp hj)).2
      _ = (n : ℚ) := by simp

/-- The Δ-MU-weighted mean of values in `[0, 1]` lies in `[0, 1]`. -/
lemma weighted_mean_mem (beam : Beam) (v : ℕ → ℚ)
    (hv : ∀ j < n_ca beam, 0 ≤ v j ∧ v j ≤ 1)
    (ht : 0 < total_delta_mu beam) :
    0 ≤ (∑ j ∈ Finset.range (n_ca beam), v j * ca_delta_mu beam j) / total_delta_mu beam ∧
      (∑ j ∈ Finset.range (n_ca beam), v j * ca_delta_mu beam j) / total_delta_mu beam ≤ 1 := by
  have htd : total_delta_mu beam = ∑ j ∈ Finset.range (n_ca beam), ca_delta_mu beam j := by
    rw [total_delta_mu, sum_range_map]
  constructor
  · exact div_nonneg (Finset.sum_nonneg fun j hj =>
      mul_nonneg (hv j (Finset.mem_range.mp hj)).1 (ca_delta_mu_nonneg beam j)) ht.le
  · rw [div_le_one ht, htd]
    exact Finset.sum_le_sum fun j hj =>
      mul_le_of_le_one_left (ca_delta_mu_nonneg beam j) (hv j (Finset.mem_range.mp hj)).2

/-- C1.  For every beam the beam-level MCS computed by `calculate_beam_metrics`
lies in `[0, 1]`: every per-CA LSV is a product of two per-bank Masi values in
`[0, 1]`, every per-CA AAV is `area / A_max` with `area ≤ A_max` by
construction of the union aperture, and both the Δ-MU-weighted and the
fallback aggregations preserve `[0, 1]`. -/
theorem mcs_mem_unit_interval (beam : Beam) :
    0 ≤ (beam_core_metrics beam).MCS ∧ (beam_core_metrics beam).MCS ≤ 1 := by
  rw [beam_core_metrics]
  by_cases ht : 0 < total_delta_mu beam
  · simp only [if_pos ht, sum_range_map]
    exact weighted_mean_mem beam (ca_mcs beam) (fun j hj => ca_mcs_mem beam hj) ht
  · simp only [if_neg ht]
    by_cases hn : 0 < n_ca beam
    · simp only [if_pos hn, sum_range_map]
      obtain ⟨hl0, hl1⟩ := mean_mem_unit hn (ca_lsv beam) (fun j hj => ca_lsv_mem beam j)
      obtain ⟨ha0, ha1⟩ := mean_mem_unit hn (ca_aav beam) (fun j hj => ca_aav_mem beam hj)
      exact ⟨mul_nonneg hl0 ha0, mul_le_one₀ hl1 ha0 ha1⟩
    · simp only [if_neg hn]
      norm_num

/-- C2 counterexample.  `beamC2` has two control arcs, at least one CA, and a
total delta-MU of 0, but the beam MCS returned by the fallback branch of
`calculate_beam_metrics` is `(mean LSV) × (mean AAV) = 9/20`, not the
unweighted mean of the per-CA MCS values, which is `2/5`. -/
theorem mcs_fallback_counterexample :
    total_delta_mu beamC2 = 0 ∧ 0 < n_ca beamC2 ∧
      (beam_core_metrics beamC2).MCS ≠
        ((List.range (n_ca beamC2)).map (ca_mcs beamC2)).sum / ((n_ca beamC2 : ℚ)) := by
  have hnp : n_pairs_of beamC2 = 3 := rfl
  have hnca : n_ca beamC2 = 2 := rfl
  have hcan0 : ca_n beamC2 0 = 3 := rfl
  have hcan1 : ca_n beamC2 1 = 3 := rfl
  have h0a : (cp_at beamC2 0).mlc_positions.bank_a = [0, 0, 0] := rfl
  have h0b : (cp_at beamC2 0).mlc_positions.bank_b = [10, 10, 0] := rfl
  have h1a : (cp_at beamC2 1).mlc_positions.bank_a = [0, 0, 0] := rfl
  have h1b : (cp_at beamC2 1).mlc_positions.bank_b = [10, 10, 0] := rfl
  have h2a : (cp_at beamC2 2).mlc_positions.bank_a = [0, 20, 0] := rfl
  have h2b : (cp_at beamC2 2).mlc_positions.bank_b = [10, 40, 0] := rfl
  have hj0 : (cp_at beamC2 0).jaw_positions = { x1 := 0, x2 := 0, y1 := -15, y2 := 15 } := rfl
  have hj1 : (cp_at beamC2 1).jaw_positions = { x1 := 0, x2 := 0, y1 := -15, y2 := 15 } := rfl
  have hj2 : (cp_at beamC2 2).jaw_positions = { x1 := 0, x2 := 0, y1 := -15, y2 := 15 } := rfl
  have hbounds : get_effective_leaf_boundaries beamC2 = [-15, -5, 5, 15] := by
    norm_num [get_effective_leaf_boundaries, beamC2, compute_leaf_boundaries,
      pyOrNat, List.range_succ]
  have hcps : beamC2.control_points =
      [{ index := 0, gantry_angle := 0, cumulative_meterset_weight := 0,
         mlc_positions := { bank_a := [0, 0, 0], bank_b := [10, 10, 0] },
         jaw_positions := { x1 := 0, x2 := 0, y1 := -15, y2 := 15 } },
       { index := 1, gantry_angle := 0, cumulative_meterset_weight := 0,
         mlc_positions := { bank_a := [0, 0, 0], bank_b := [10, 10, 0] },
         jaw_positions := { x1 := 0, x2 := 0, y1 := -15, y2 := 15 } },
       { index := 2, gantry_angle := 0, cumulative_meterset_weight := 0,
         mlc_positions := { bank_a := [0, 20, 0], bank_b := [10, 40, 0] },
         jaw_positions := { x1 := 0, x2 := 0, y1 := -15, y2 := 15 } }] := rfl
  have hmg : plan_min_gap beamC2 = 0 := by
    norm_num [plan_min_gap, hcps, hnp, List.range_succ, List.min?]
  have hgaps0 : ca_gaps beamC2 0 = [10, 10, 0] := by
    norm_num [ca_gaps, hcan0, ca_mid_a_at, ca_mid_b_at, h0a, h0b, h1a, h1b, List.range_succ]
  have hgaps1 : ca_gaps beamC2 1 = [10, 15, 0] := by
    norm_num [ca_gaps, hcan1, ca_mid_a_at, ca_mid_b_at, h1a, h1b, h2a, h2b, List.range_succ]
  have hact0 : ca_active beamC2 0 = [true, true, false] := by
    norm_num [ca_active, determine_active_leaves, hgaps0, hbounds, hmg,
      ca_mid_y1, ca_mid_y2, hj0, hj1, List.range_succ]
  have hact1 : ca_active beamC2 1 = [true, true, false] := by
    norm_num [ca_active, determine_active_leaves, hgaps1, hbounds, hmg,
      ca_mid_y1, ca_mid_y2, hj1, hj2, List.range_succ]
  have hmida0 : ca_mid_a beamC2 0 = [0, 0, 0] := by
    norm_num [ca_mid_a, hcan0, ca_mid_a_at, h0a, h1a, List.range_succ]
  have hmidb0 : ca_mid_b beamC2 0 = [10, 10, 0] := by
    norm_num [ca_mid_b, hcan0, ca_mid_b_at, h0b, h1b, List.range_succ]
  have hmida1 : ca_mid_a beamC2 1 = [0, 10, 0] := by
    norm_num [ca_mid_a, hcan1, ca_mid_a_at, h1a, h2a, List.range_succ]
  have hmidb1 : ca_mid_b beamC2 1 = [10, 25, 0] := by
    norm_num [ca_mid_b, hcan1, ca_mid_b_at, h1b, h2b, List.range_succ]
  have harea0 : ca_area beamC2 0 = 200 := by
    norm_num [ca_area, calculate_area_ca, hmida0, hmidb0, hbounds, hact0,
      ca_mid_y1, ca_mid_y2, hj0, hj1, List.range_succ]
  have harea1 : ca_area beamC2 1 = 250 := by
    norm_num [ca_area, calculate_area_ca, hmida1, hmidb1, hbounds, hact1,
      ca_mid_y1, ca_mid_y2, hj1, hj2, List.range_succ]
  have hlsv0 : ca_lsv beamC2 0 = 1 := by
    norm_num [ca_lsv, calculate_lsv_bank, active_indices, lsv_diffs, hmida0, hmidb0,
      hact0, List.range_succ]
  have hlsv1 : ca_lsv beamC2 1 = 0 := by
    norm_num [ca_lsv, calculate_lsv_bank, active_indices, lsv_diffs, hmida1, hmidb1,
      hact1, List.range_succ]
  have hamax : a_max_union beamC2 = 250 := by
    norm_num [a_max_union, per_leaf_max_contrib, ca_contrib, ca_eff_w, hnp, hnca,
      hcan0, hcan1, hact0, hact1, hgaps0, hgaps1, hbounds, ca_mid_y1, ca_mid_y2,
      hj0, hj1, hj2, List.range_succ]
  have hdmu0 : ca_delta_mu beamC2 0 = 0 := by
    norm_num [ca_delta_mu, cp_at, hcps]
  have hdmu1 : ca_delta_mu beamC2 1 = 0 := by
    norm_num [ca_delta_mu, cp_at, hcps]
  have htot : total_delta_mu beamC2 = 0 := by
    norm_num [total_delta_mu, hnca, hdmu0, hdmu1, List.range_succ]
  have haav0 : ca_aav beamC2 0 = 4/5 := by norm_num [ca_aav, hamax, harea0]
  have haav1 : ca_aav beamC2 1 = 1 := by norm_num [ca_aav, hamax, harea1]
  have hmcs0 : ca_mcs beamC2 0 = 4/5 := by norm_num [ca_mcs, hlsv0, haav0]
  have hmcs1 : ca_mcs beamC2 1 = 0 := by norm_num [ca_mcs, hlsv1, haav1]
  have hfinal : (beam_core_metrics beamC2).MCS = 9/20 := by
    norm_num [beam_core_metrics, htot, hnca, hlsv0, hlsv1, haav0, haav1, List.range_succ]
  have hmean : ((List.range (n_ca beamC2)).map (ca_mcs beamC2)).sum / ((n_ca beamC2 : ℚ)) = 2/5 := by
    norm_num [hnca, hmcs0, hmcs1, List.range_succ]
  refine ⟨htot, by rw [hnca]; norm_num, ?_⟩
  rw [hfinal, hmean]
  norm_num

/-- C2 amended.  For a beam with total delta-MU 0, the fallback branch of
`calculate_beam_metrics` sets LSV and AAV to the unweighted means of the
per-CA values, but MCS to the product LSV × AAV of those two means (not the
mean of the per-CA MCS values); with no CAs all three are 0. -/
theorem mcs_fallback_product_of_means (beam : Beam)
    (ht : total_delta_mu beam = 0) :
    (beam_core_metrics beam).MCS =
        (beam_core_metrics beam).LSV * (beam_core_metrics beam).AAV ∧
      (0 < n_ca beam →
        (beam_core_metrics beam).LSV =
          ((List.range (n_ca beam)).map (ca_lsv beam)).sum / (n_ca beam : ℚ) ∧
        (beam_core_metrics beam).AAV =
          ((List.range (n_ca beam)).map (ca_aav beam)).sum / (n_ca beam : ℚ)) ∧
      (n_ca beam = 0 →
        (beam_core_metrics beam).LSV = 0 ∧ (beam_core_metrics beam).AAV = 0 ∧
          (beam_core_metrics beam).MCS = 0) := by
  have hnt : ¬ 0 < total_delta_mu beam := by rw [ht]; exact lt_irrefl 0
  refine ⟨?_, ?_, ?_⟩
  · by_cases hn : 0 < n_ca beam
    · simp [beam_core_metrics, if_neg hnt, hn]
    · simp [beam_core_metrics, if_neg hnt, hn]
  · intro hn
    constructor <;> simp [beam_core_metrics, if_neg hnt, hn]
  · intro h0
    have hn : ¬ 0 < n_ca beam := by omega
    refine ⟨?_, ?_, ?_⟩ <;> simp [beam_core_metrics, if_neg hnt, hn]

/-- Witness for C2: the amended fallback statement evaluated at `beamC2`. -/
theorem mcs_fallback_product_of_means_witness :
    total_delta_mu beamC2 = 0 ∧
      ((beam_core_metrics beamC2).MCS =
          (beam_core_metrics beamC2).LSV * (beam_core_metrics beamC2).AAV ∧
        (0 < n_ca beamC2 →
          (beam_core_metrics beamC2).LSV =
            ((List.range (n_ca beamC2)).map (ca_lsv beamC2)).sum / (n_ca beamC2 : ℚ) ∧
          (beam_core_metrics beamC2).AAV =
            ((List.range (n_ca beamC2)).map (ca_aav beamC2)).sum / (n_ca beamC2 : ℚ)) ∧
        (n_ca beamC2 = 0 →
          (beam_core_metrics beamC2).LSV = 0 ∧ (beam_core_metrics beamC2).AAV = 0 ∧
            (beam_core_metrics beamC2).MCS = 0)) := by
  have htot : total_delta_mu beamC2 = 0 := by
    norm_num [total_delta_mu, n_ca, beamC2, ca_delta_mu, cp_at, List.range_succ]
  exact ⟨htot, mcs_fallback_product_of_means beamC2 htot⟩

/-! ### The two-control-point scenario (C9) -/

lemma plan_min_gap_nonneg (beam : Beam) : 0 ≤ plan_min_gap beam := by
  rw [plan_min_gap]
  split_ifs with h
  · exact le_rfl
  · exact not_lt.mp h

lemma getD_map_range_true {f : ℕ → Bool} {k n : ℕ}
    (h : ((List.range n).map f).getD k false = true) : k < n ∧ f k = true := by
  by_cases hk : k < n
  · rw [getD_range_map _ _ hk] at h
    exact ⟨hk, h⟩
  · rw [List.getD_eq_default] at h
    · exact absurd h (by simp)
    · simp [not_lt.mp hk]

lemma ca_active_spec (beam : Beam) {j k : ℕ}
    (h : (ca_active beam j).getD k false = true) :
    k < (ca_gaps beam j).length ∧
      plan_min_gap beam < (ca_gaps beam j).getD k 0 := by
  rw [ca_active, determine_active_leaves] at h
  obtain ⟨hk, hf⟩ := getD_map_range_true h
  simp only [Bool.and_eq_true, decide_eq_true_eq] at hf
  exact ⟨hk, hf.2⟩

lemma ca_active_gap_pos (beam : Beam) {j k : ℕ}
    (h : (ca_active beam j).getD k false = true) :
    0 < (ca_gaps beam j).getD k 0 :=
  lt_of_le_of_lt (plan_min_gap_nonneg beam) (ca_active_spec beam h).2

lemma ca_contrib_nonneg (beam : Beam) (j k : ℕ) : 0 ≤ ca_contrib beam j k := by
  rw [ca_contrib]
  split_ifs with h
  · exact mul_nonneg (ca_active_gap_pos beam h.2).le (le_max_left 0 _)
  · exact le_rfl

/-- For a beam with exactly one control arc, the CA area equals the union
aperture by construction. -/
lemma single_ca_area_eq_amax (beam : Beam)
    (h2 : beam.control_points.length = 2) :
    a_max_union beam = ca_area beam 0 := by
  have hnca : n_ca beam = 1 := by rw [n_ca, h2]
  have hplm : ∀ k, per_leaf_max_contrib beam k = ca_contrib beam 0 k := by
    intro k
    rw [per_leaf_max_contrib, hnca]
    simp only [List.range_succ, List.range_zero, List.nil_append, List.map_cons,
      List.map_nil, List.foldl_cons, List.foldl_nil]
    exact max_eq_right (ca_contrib_nonneg beam 0 k)
  have hterm : ∀ k < ca_n beam 0, ca_contrib beam 0 k = ca_area_term beam 0 k := by
    intro k hk
    rw [ca_contrib, ca_area_term]
    by_cases ha : (ca_active beam 0).getD k false
    · rw [if_pos ⟨hk, ha⟩, if_pos ha, ca_gaps_getD beam hk]
      have hgap : 0 < (ca_gaps beam 0).getD k 0 := ca_active_gap_pos beam ha
      rw [ca_gaps_getD beam hk] at hgap
      rw [if_neg (not_le.mpr hgap)]
    · rw [if_neg (fun hc => ha hc.2), if_neg ha]
  rw [a_max_union_eq, ca_area_eq]
  calc ∑ k ∈ Finset.range (n_pairs_of beam), per_leaf_max_contrib beam k
      = ∑ k ∈ Finset.range (n_pairs_of beam), ca_contrib beam 0 k :=
        Finset.sum_congr rfl fun k _ => hplm k
    _ = ∑ k ∈ Finset.range (ca_n beam 0), ca_contrib beam 0 k := by
        refine (Finset.sum_subset (Finset.range_subset.mpr (ca_n_le_n_pairs beam 0)) ?_).symm
        intro k _ hk
        rw [Finset.mem_range] at hk
        rw [ca_contrib, if_neg (fun hc => hk hc.1)]
    _ = ∑ k ∈ Finset.range (ca_n beam 0), ca_area_term beam 0 k :=
        Finset.sum_congr rfl fun k hk => hterm k (Finset.mem_range.mp hk)

/-- C9 amended.  For a beam of exactly two control points with identical bank
positions at both control points, whose active leaves sit at identical
midpoint positions within each bank and whose single CA has positive area,
`calculate_beam_metrics` returns beam LSV = AAV = MCS = 1. -/
theorem identical_cp_beam_unity (beam : Beam) (cp1 cp2 : ControlPoint)
    (hcps : beam.control_points = [cp1, cp2])
    (hmlc : cp1.mlc_positions = cp2.mlc_positions)
    (huniA : ∀ i ∈ active_indices (ca_mid_a beam 0) (ca_active beam 0),
       ∀ j ∈ active_indices (ca_mid_a beam 0) (ca_active beam 0),
         (ca_mid_a beam 0).getD i 0 = (ca_mid_a beam 0).getD j 0)
    (huniB : ∀ i ∈ active_indices (ca_mid_b beam 0) (ca_active beam 0),
       ∀ j ∈ active_indices (ca_mid_b beam 0) (ca_active beam 0),
         (ca_mid_b beam 0).getD i 0 = (ca_mid_b beam 0).getD j 0)
    (harea : 0 < ca_area beam 0) :
    (beam_core_metrics beam).LSV = 1 ∧ (beam_core_metrics beam).AAV = 1 ∧
      (beam_core_metrics beam).MCS = 1 := by
  have h2 : beam.control_points.length = 2 := by rw [hcps]; rfl
  have hnca : n_ca beam = 1 := by rw [n_ca, h2]
  have hlsv : ca_lsv beam 0 = 1 := by
    rw [ca_lsv, calculate_lsv_bank_eq_one _ _ (Or.inr huniA),
      calculate_lsv_bank_eq_one _ _ (Or.inr huniB), mul_one]
  have haav : ca_aav beam 0 = 1 := by
    have hamax : a_max_union beam = ca_area beam 0 := single_ca_area_eq_amax beam h2
    rw [ca_aav, if_pos (hamax ▸ harea), hamax, div_self (ne_of_gt harea)]
  have hmcs : ca_mcs beam 0 = 1 := by rw [ca_mcs, hlsv, haav, mul_one]
  have htot : total_delta_mu beam = ca_delta_mu beam 0 := by
    rw [total_delta_mu, hnca]
    simp [List.range_succ]
  by_cases ht : 0 < total_delta_mu beam
  · have hne : total_delta_mu beam ≠ 0 := ne_of_gt ht
    refine ⟨?_, ?_, ?_⟩ <;>
    · simp only [beam_core_metrics, if_pos ht, hnca, List.range_succ, List.range_zero,
        List.map_append, List.map_cons, List.map_nil, List.sum_append, List.sum_cons,
        List.sum_nil, List.nil_append, add_zero, zero_add, hlsv, haav, hmcs, one_mul]
      rw [← htot, div_self hne]
  · refine ⟨?_, ?_, ?_⟩ <;>
      simp [beam_core_metrics, if_neg ht, hnca, List.range_succ,
        hlsv, haav, hmcs]

/-- C9 counterexample.  `beamC9c` has exactly two control points with
identical bank positions at both, yet `calculate_beam_metrics` returns beam
LSV = 0 and MCS = 0 (its two active leaf pairs sit at different positions,
so the Masi per-bank LSV of the single CA is 0, not 1). -/
theorem identical_cp_beam_counterexample :
    beamC9c.control_points.length = 2 ∧
      (cp_at beamC9c 0).mlc_positions = (cp_at beamC9c 1).mlc_positions ∧
      (beam_core_metrics beamC9c).LSV = 0 ∧ (beam_core_metrics beamC9c).MCS ≠ 1 := by
  have hnp : n_pairs_of beamC9c = 3 := rfl
  have hnca : n_ca beamC9c = 1 := rfl
  have hcan0 : ca_n beamC9c 0 = 3 := rfl
  have h0a : (cp_at beamC9c 0).mlc_positions.bank_a = [-10, -20, -30] := rfl
  have h0b : (cp_at beamC9c 0).mlc_positions.bank_b = [-5, 20, 30] := rfl
  have h1a : (cp_at beamC9c 1).mlc_positions.bank_a = [-10, -20, -30] := rfl
  have h1b : (cp_at beamC9c 1).mlc_positions.bank_b = [-5, 20, 30] := rfl
  have hj0 : (cp_at beamC9c 0).jaw_positions = { x1 := 0, x2 := 0, y1 := -15, y2 := 15 } := rfl
  have hj1 : (cp_at beamC9c 1).jaw_positions = { x1 := 0, x2 := 0, y1 := -15, y2 := 15 } := rfl
  have hbounds : get_effective_leaf_boundaries beamC9c = [-15, -5, 5, 15] := by
    norm_num [get_effective_leaf_boundaries, beamC9c, compute_leaf_boundaries,
      pyOrNat, List.range_succ]
  have hcps : beamC9c.control_points =
      [{ index := 0, gantry_angle := 0, cumulative_meterset_weight := 0,
         mlc_positions := { bank_a := [-10, -20, -30], bank_b := [-5, 20, 30] },
         jaw_positions := { x1 := 0, x2 := 0, y1 := -15, y2 := 15 } },
       { index := 1, gantry_angle := 0, cumulative_meterset_weight := 1,
         mlc_positions := { bank_a := [-10, -20, -30], bank_b := [-5, 20, 30] },
         jaw_positions := { x1 := 0, x2 := 0, y1 := -15, y2 := 15 } }] := rfl
  have hmg : plan_min_gap beamC9c = 5 := by
    norm_num [plan_min_gap, hcps, hnp, List.range_succ, List.min?]
  have hgaps0 : ca_gaps beamC9c 0 = [5, 40, 60] := by
    norm_num [ca_gaps, hcan0, ca_mid_a_at, ca_mid_b_at, h0a, h0b, h1a, h1b, List.range_succ]
  have hact0 : ca_active beamC9c 0 = [false, true, true] := by
    norm_num [ca_active, determine_active_leaves, hgaps0, hbounds, hmg,
      ca_mid_y1, ca_mid_y2, hj0, hj1, List.range_succ]
  have hmida0 : ca_mid_a beamC9c 0 = [-10, -20, -30] := by
    norm_num [ca_mid_a, hcan0, ca_mid_a_at, h0a, h1a, List.range_succ]
  have hmidb0 : ca_mid_b beamC9c 0 = [-5, 20, 30] := by
    norm_num [ca_mid_b, hcan0, ca_mid_b_at, h0b, h1b, List.range_succ]
  have hlsv0 : ca_lsv beamC9c 0 = 0 := by
    norm_num [ca_lsv, calculate_lsv_bank, active_indices, lsv_diffs, hmida0, hmidb0,
      hact0, List.range_succ]
  have hdmu0 : ca_delta_mu beamC9c 0 = 1 := by
    norm_num [ca_delta_mu, cp_at, hcps]
  have htot : total_delta_mu beamC9c = 1 := by
    norm_num [total_delta_mu, hnca, hdmu0, List.range_succ]
  have hLSV : (beam_core_metrics beamC9c).LSV = 0 := by
    norm_num [beam_core_metrics, htot, hnca, hlsv0, hdmu0, List.range_succ]
  have hMCS : (beam_core_metrics beamC9c).MCS = 0 := by
    norm_num [beam_core_metrics, htot, hnca, hlsv0, hdmu0, ca_mcs, List.range_succ]
  refine ⟨rfl, rfl, hLSV, ?_⟩
  rw [hMCS]
  norm_num

/-- Witness for C9: the amended unity statement evaluated at `beamC9w`. -/
theorem identical_cp_beam_unity_witness :
    (cp_at beamC9w 0).mlc_positions = (cp_at beamC9w 1).mlc_positions ∧
      0 < ca_area beamC9w 0 ∧
      ((beam_core_metrics beamC9w).LSV = 1 ∧ (beam_core_metrics beamC9w).AAV = 1 ∧
        (beam_core_metrics beamC9w).MCS = 1) := by
  have hnp : n_pairs_of beamC9w = 3 := rfl
  have hcan0 : ca_n beamC9w 0 = 3 := rfl
  have h0a : (cp_at beamC9w 0).mlc_positions.bank_a = [0, 0, 0] := rfl
  have h0b : (cp_at beamC9w 0).mlc_positions.bank_b = [10, 10, 0] := rfl
  have h1a : (cp_at beamC9w 1).mlc_positions.bank_a = [0, 0, 0] := rfl
  have h1b : (cp_at beamC9w 1).mlc_positions.bank_b = [10, 10, 0] := rfl
  have hj0 : (cp_at beamC9w 0).jaw_positions = { x1 := 0, x2 := 0, y1 := -15, y2 := 15 } := rfl
  have hj1 : (cp_at beamC9w 1).jaw_positions = { x1 := 0, x2 := 0, y1 := -15, y2 := 15 } := rfl
  have hbounds : get_effective_leaf_boundaries beamC9w = [-15, -5, 5, 15] := by
    norm_num [get_effective_leaf_boundaries, beamC9w, compute_leaf_boundaries,
      pyOrNat, List.range_succ]
  have hcps : beamC9w.control_points =
      [{ index := 0, gantry_angle := 0, cumulative_meterset_weight := 0,
         mlc_positions := { bank_a := [0, 0, 0], bank_b := [10, 10, 0] },
         jaw_positions := { x1 := 0, x2 := 0, y1 := -15, y2 := 15 } },
       { index := 1, gantry_angle := 0, cumulative_meterset_weight := 1,
         mlc_positions := { bank_a := [0, 0, 0], bank_b := [10, 10, 0] },
         jaw_positions := { x1 := 0, x2 := 0, y1 := -15, y2 := 15 } }] := rfl
  have hmg : plan_min_gap beamC9w = 0 := by
    norm_num [plan_min_gap, hcps, hnp, List.range_succ, List.min?]
  have hgaps0 : ca_gaps beamC9w 0 = [10, 10, 0] := by
    norm_num [ca_gaps, hcan0, ca_mid_a_at, ca_mid_b_at, h0a, h0b, h1a, h1b, List.range_succ]
  have hact0 : ca_active beamC9w 0 = [true, true, false] := by
    norm_num [ca_active, determine_active_leaves, hgaps0, hbounds, hmg,
      ca_mid_y1, ca_mid_y2, hj0, hj1, List.range_succ]
  have hmida0 : ca_mid_a beamC9w 0 = [0, 0, 0] := by
    norm_num [ca_mid_a, hcan0, ca_mid_a_at, h0a, h1a, List.range_succ]
  have hmidb0 : ca_mid_b beamC9w 0 = [10, 10, 0] := by
    norm_num [ca_mid_b, hcan0, ca_mid_b_at, h0b, h1b, List.range_succ]
  have harea : ca_area beamC9w 0 = 200 := by
    norm_num [ca_area, calculate_area_ca, hmida0, hmidb0, hbounds, hact0,
      ca_mid_y1, ca_mid_y2, hj0, hj1, List.range_succ]
  have hidxA : active_indices (ca_mid_a beamC9w 0) (ca_active beamC9w 0) = [0, 1] := by
    norm_num [active_indices, hmida0, hact0, List.range_succ, List.filter]
  have hidxB : active_indices (ca_mid_b beamC9w 0) (ca_active beamC9w 0) = [0, 1] := by
    norm_num [active_indices, hmidb0, hact0, List.range_succ, List.filter]
  have huniA : ∀ i ∈ active_indices (ca_mid_a beamC9w 0) (ca_active beamC9w 0),
      ∀ j ∈ active_indices (ca_mid_a beamC9w 0) (ca_active beamC9w 0),
        (ca_mid_a beamC9w 0).getD i 0 = (ca_mid_a beamC9w 0).getD j 0 := by
    rw [hidxA, hmida0]
    intro i hi j hj
    fin_cases hi <;> fin_cases hj <;> rfl
  have huniB : ∀ i ∈ active_indices (ca_mid_b beamC9w 0) (ca_active beamC9w 0),
      ∀ j ∈ active_indices (ca_mid_b beamC9w 0) (ca_active beamC9w 0),
        (ca_mid_b beamC9w 0).getD i 0 = (ca_mid_b beamC9w 0).getD j 0 := by
    rw [hidxB, hmidb0]
    intro i hi j hj
    fin_cases hi <;> fin_cases hj <;> rfl
  refine ⟨rfl, by rw [harea]; norm_num, ?_⟩
  exact identical_cp_beam_unity beamC9w _ _ rfl rfl huniA huniB (by rw [harea]; norm_num)

/-! ### The delivery-time estimator claims (C3, C4, C5) -/

/-- C3 counterexample.  For the single-control-point beam `beamC3` the
estimator returns total time 0 but reports the limiting factor `"doseRate"`:
the limiting-factor output is a plain string and is never absent, refuting
the claim that a ≤1-control-point beam reports no limiting factor. -/
theorem delivery_time_single_cp_counterexample :
    beamC3.control_points.length = 1 ∧
      estimate_beam_delivery_time beamC3 (control_point_metrics_list beamC3)
        DEFAULT_MACHINE_PARAMS = .ok ⟨0, "doseRate", 0, 0, none⟩ := by
  exact ⟨rfl, rfl⟩

/-- C3 amended.  For every beam with at most one control point the estimator
returns total delivery time 0, average dose rate 0, average MLC speed 0, and
the limiting factor `"doseRate"` (the tie-breaking default), not an absent
value. -/
theorem delivery_time_single_cp (beam : Beam) (cpms : List ControlPointMetrics)
    (machine_params : MachineDeliveryParams)
    (h : beam.control_points.length ≤ 1) :
    ∃ m, estimate_beam_delivery_time beam cpms machine_params =
      .ok ⟨0, "doseRate", 0, 0, m⟩ := by
  have h0 : beam.control_points.length - 1 = 0 := by omega
  rw [estimate_beam_delivery_time, estimate_delivery_aux, h0]
  exact ⟨_, rfl⟩

/-- Witness for C3: the amended statement evaluated at `beamC3`. -/
theorem delivery_time_single_cp_witness :
    beamC3.control_points.length ≤ 1 ∧
      ∃ m, estimate_beam_delivery_time beamC3 (control_point_metrics_list beamC3)
        DEFAULT_MACHINE_PARAMS = .ok ⟨0, "doseRate", 0, 0, m⟩ :=
  ⟨by norm_num [beamC3],
   delivery_time_single_cp beamC3 (control_point_metrics_list beamC3)
     DEFAULT_MACHINE_PARAMS (by norm_num [beamC3])⟩

/-- C4 counterexample.  `beamC4` has `number_of_leaves = 0` and a positive
delivery time, and the estimator raises `ZeroDivisionError` in the
`avg_mlc_speed` division `total_leaf_travel / total_time / number_of_leaves`,
which is not guarded on the leaf count. -/
theorem estimator_zero_leaves_raises :
    beamC4.number_of_leaves = 0 ∧
      estimate_beam_delivery_time beamC4 (control_point_metrics_list beamC4)
        DEFAULT_MACHINE_PARAMS = .error "ZeroDivisionError" := by
  refine ⟨rfl, ?_⟩
  norm_num [estimate_beam_delivery_time, estimate_delivery_aux, delivery_step, pyDiv,
    pyOrQ, control_point_metrics_list, calculate_control_point_metrics,
    calculate_leaf_travel, get_max_leaf_travel, cp_at, beamC4, DEFAULT_MACHINE_PARAMS,
    List.range_succ, List.range', List.foldlM, Bind.bind, Except.bind, Pure.pure,
    Except.pure]

lemma delivery_step_ok (beam : Beam) (cpms : List ControlPointMetrics)
    (mp : MachineDeliveryParams) (beam_mu : ℚ) (acc : ℚ × ℚ × ℚ × ℚ) (i : ℕ)
    (hdr : mp.max_dose_rate ≠ 0) (hg : mp.max_gantry_speed ≠ 0)
    (hm : mp.max_mlc_speed ≠ 0) :
    ∃ v, delivery_step beam cpms mp beam_mu acc i = .ok v := by
  have h60 : mp.max_dose_rate / 60 ≠ 0 := by
    rw [div_ne_zero_iff]
    exact ⟨hdr, by norm_num⟩
  have hbind : ∀ (x : ℚ) (k : ℚ → Except String (ℚ × ℚ × ℚ × ℚ)),
      (Except.ok x >>= k) = k x := fun _ _ => rfl
  have hpure : ∀ (x : ℚ) (k : ℚ → Except String (ℚ × ℚ × ℚ × ℚ)),
      ((pure x : Except String ℚ) >>= k) = k x := fun _ _ => rfl
  by_cases harc : beam.is_arc <;>
  · simp only [delivery_step, pyDiv, harc, if_neg h60, if_neg hg, if_neg hm,
      if_true, if_false, Bool.false_eq_true, hbind, hpure]
    split_ifs <;> exact ⟨_, rfl⟩

lemma delivery_foldlM_ok (beam : Beam) (cpms : List ControlPointMetrics)
    (mp : MachineDeliveryParams) (beam_mu : ℚ) (l : List ℕ) (acc : ℚ × ℚ × ℚ × ℚ)
    (hdr : mp.max_dose_rate ≠ 0) (hg : mp.max_gantry_speed ≠ 0)
    (hm : mp.max_mlc_speed ≠ 0) :
    ∃ v, l.foldlM (delivery_step beam cpms mp beam_mu) acc = .ok v := by
  induction l generalizing acc with
  | nil => exact ⟨acc, rfl⟩
  | cons i l ih =>
      obtain ⟨w, hw⟩ := delivery_step_ok beam cpms mp beam_mu acc i hdr hg hm
      obtain ⟨v, hv⟩ := ih w
      exact ⟨v, by rw [List.foldlM_cons, hw]; exact hv⟩

/-- C4 amended.  Every division in the estimator by a segment count, MU sum or
total delivery time is guarded, and for any machine parameters with nonzero
limits the estimator never raises as long as `number_of_leaves ≠ 0`; the one
unguarded denominator is the leaf count in `avg_mlc_speed` (see the
counterexample at `number_of_leaves = 0`). -/
theorem estimator_no_raise (beam : Beam) (cpms : List ControlPointMetrics)
    (mp : MachineDeliveryParams) (hl : beam.number_of_leaves ≠ 0)
    (hdr : mp.max_dose_rate ≠ 0) (hg : mp.max_gantry_speed ≠ 0)
    (hm : mp.max_mlc_speed ≠ 0) :
    ∃ v, estimate_beam_delivery_time beam cpms mp = .ok v := by
  rw [estimate_beam_delivery_time, estimate_delivery_aux]
  obtain ⟨acc, hacc⟩ := delivery_foldlM_ok beam cpms mp (pyOrQ beam.beam_dose 100)
    (List.range' 1 (beam.control_points.length - 1)) (0, 0, 0, 0) hdr hg hm
  rw [hacc]
  have hstep : ∀ k : (ℚ × ℚ × ℚ × ℚ) → Except String DeliveryTimeResult,
      (Except.ok acc >>= k) = k acc := fun _ => rfl
  rw [hstep]
  by_cases hpos : 0 < acc.1
  · have h1 : acc.1 ≠ 0 := ne_of_gt hpos
    have h2 : (beam.number_of_leaves : ℚ) ≠ 0 := Nat.cast_ne_zero.mpr hl
    simp only [hpos, if_true, pyDiv, if_neg h1, if_neg h2]
    exact ⟨_, rfl⟩
  · simp only [hpos, if_false]
    exact ⟨_, rfl⟩

/-- Witness for C4: the amended no-raise statement at `beamC5` (one leaf,
default machine parameters). -/
theorem estimator_no_raise_witness :
    beamC5.number_of_leaves ≠ 0 ∧
      ∃ v, estimate_beam_delivery_time beamC5 (control_point_metrics_list beamC5)
        DEFAULT_MACHINE_PARAMS = .ok v :=
  ⟨by norm_num [beamC5],
   estimator_no_raise beamC5 (control_point_metrics_list beamC5)
     DEFAULT_MACHINE_PARAMS (by norm_num [beamC5])
     (by norm_num [DEFAULT_MACHINE_PARAMS])
     (by norm_num [DEFAULT_MACHINE_PARAMS])
     (by norm_num [DEFAULT_MACHINE_PARAMS])⟩

/-- C5 counterexample.  `beamC5` has unset beam MU (`beam_dose = None`), yet
the estimator returns a delivery time of 10 s and an average dose rate of
600 MU/min — computed from the substituted MU value 100, not recovered via
the documented zero/None fallback. -/
theorem estimator_substituted_mu_counterexample :
    beamC5.beam_dose = none ∧
      estimate_beam_delivery_time beamC5 (control_point_metrics_list beamC5)
        DEFAULT_MACHINE_PARAMS = .ok ⟨10, "doseRate", 600, 0, none⟩ ∧
      (10 : ℚ) ≠ 0 ∧ (600 : ℚ) ≠ 0 := by
  refine ⟨rfl, ?_, by norm_num, by norm_num⟩
  norm_num [estimate_beam_delivery_time, estimate_delivery_aux, delivery_step, pyDiv,
    pyOrQ, control_point_metrics_list, calculate_control_point_metrics,
    calculate_leaf_travel, get_max_leaf_travel, cp_at, beamC5, DEFAULT_MACHINE_PARAMS,
    List.range_succ, List.range', List.foldlM, Bind.bind, Except.bind, Pure.pure,
    Except.pure]

/-- C5 amended.  For a beam whose MU is zero or unset the estimator does not
use a zero/None fallback: line 531 substitutes `beam_mu = 100.0` and every
MU-derived output (delivery time, average dose rate, MU-per-degree) is
computed from that substituted value. -/
theorem estimator_substitutes_100 (beam : Beam) (cpms : List ControlPointMetrics)
    (mp : MachineDeliveryParams)
    (h : beam.beam_dose = none ∨ beam.beam_dose = some 0) :
    estimate_beam_delivery_time beam cpms mp = estimate_delivery_aux beam cpms mp 100 := by
  rw [estimate_beam_delivery_time]
  rcases h with h | h <;> rw [h] <;> rfl

/-- Witness for C5: the substitution statement evaluated at `beamC5`. -/
theorem estimator_substitutes_100_witness :
    (beamC5.beam_dose = none ∨ beamC5.beam_dose = some 0) ∧
      estimate_beam_delivery_time beamC5 (control_point_metrics_list beamC5)
        DEFAULT_MACHINE_PARAMS =
        estimate_delivery_aux beamC5 (control_point_metrics_list beamC5)
          DEFAULT_MACHINE_PARAMS 100 :=
  ⟨Or.inl rfl,
   estimator_substitutes_100 beamC5 (control_point_metrics_list beamC5)
     DEFAULT_MACHINE_PARAMS (Or.inl rfl)⟩

/-! ### The per-control-point aperture area (C6) -/

lemma cpa_term_nonneg (mlc : MLCLeafPositions) (leaf_widths : List ℚ)
    (jaw : JawPositions) (i : ℕ) : 0 ≤ cpa_term mlc leaf_widths jaw i := by
  rw [cpa_term]
  split_ifs with h1 h2
  · exact le_rfl
  · exact le_rfl
  · exact mul_nonneg (le_of_lt (not_le.mp h2)) (le_of_lt (not_le.mp h1))

/-- C6 counterexample.  A single open leaf pair (`bank_a = -10 < 10 = bank_b`)
with the default all-zero jaw record still yields aperture area 0, because the
degenerate Y jaw `y1 = y2 = 0` clips every leaf to zero effective width. -/
theorem aperture_area_closed_jaw_counterexample :
    (MLCLeafPositions.mk [-10] [10]).bank_a.getD 0 0 <
        (MLCLeafPositions.mk [-10] [10]).bank_b.getD 0 0 ∧
      calculate_aperture_area (MLCLeafPositions.mk [-10] [10]) [10]
        (JawPositions.mk 0 0 0 0) = 0 := by
  constructor
  · norm_num
  · norm_num [calculate_aperture_area, cpa_term, cpa_eff, cpa_a, cpa_b, cpa_n, cpa_w,
      cpa_leaf_top, cpa_total_width, List.range_succ]

/-- C6 amended.  With equal-length banks and widths, strictly positive leaf
widths, no X jaw set (`x1 = x2 = 0`), and a Y-jaw opening that covers the
whole leaf stack, the per-control-point aperture area is 0 exactly when every
leaf pair is closed (`bank_b[k] ≤ bank_a[k]` for all `k`); it is strictly
positive as soon as one pair has `bank_b[k] > bank_a[k]`.  (Without the jaw
hypotheses the positive direction fails, see the counterexample.) -/
theorem aperture_area_zero_iff (mlc : MLCLeafPositions) (widths : List ℚ)
    (jaw : JawPositions)
    (hab : mlc.bank_a.length = mlc.bank_b.length)
    (hw : widths.length = mlc.bank_a.length)
    (hwpos : ∀ i < widths.length, 0 < widths.getD i 5)
    (hx1 : jaw.x1 = 0) (hx2 : jaw.x2 = 0)
    (hy1 : jaw.y1 ≤ -(widths.sum / 2)) (hy2 : widths.sum / 2 ≤ jaw.y2) :
    calculate_aperture_area mlc widths jaw = 0 ↔
      ∀ k < mlc.bank_a.length, mlc.bank_b.getD k 0 ≤ mlc.bank_a.getD k 0 := by
  by_cases hL : mlc.bank_a.length = 0
  · rw [calculate_aperture_area, if_pos (Or.inl hL)]
    simp [hL]
  · have hne : ¬ (mlc.bank_a.length = 0 ∨ mlc.bank_b.length = 0) := by
      rw [← hab]
      exact fun h => hL (h.elim id id)
    have hwne : ¬ widths.isEmpty := by
      rw [List.isEmpty_iff_length_eq_zero, hw]
      exact hL
    have hn : cpa_n mlc widths = mlc.bank_a.length := by
      rw [cpa_n, if_neg hwne, ← hab, hw]
      simp
    have hT : cpa_total_width mlc widths = widths.sum := by
      rw [cpa_total_width, hn, ← hw]
      exact sum_getD_range widths 5
    have hP0 : ∀ k ≤ mlc.bank_a.length, 0 ≤ ((List.range k).map (cpa_w widths)).sum := by
      intro k hk
      rw [sum_range_map]
      refine Finset.sum_nonneg fun j hj => ?_
      rw [Finset.mem_range] at hj
      exact (hwpos j (by omega)).le
    have hPT : ∀ k ≤ mlc.bank_a.length,
        ((List.range k).map (cpa_w widths)).sum ≤ widths.sum := by
      intro k hk
      have : widths.sum = ((List.range mlc.bank_a.length).map (cpa_w widths)).sum := by
        rw [← hw]
        exact (sum_getD_range widths 5).symm
      rw [this, sum_range_map, sum_range_map]
      refine Finset.sum_le_sum_of_subset_of_nonneg (Finset.range_subset.mpr hk) ?_
      intro j hj _
      rw [Finset.mem_range] at hj
      exact (hwpos j (by omega)).le
    have heff : ∀ k < mlc.bank_a.length,
        cpa_eff mlc widths jaw k = cpa_w widths k := by
      intro k hk
      rw [cpa_eff]
      have hwk : 0 < cpa_w widths k := hwpos k (by omega)
      have htop : max (cpa_leaf_top mlc widths k) jaw.y1 = cpa_leaf_top mlc widths k := by
        refine max_eq_left (le_trans hy1 ?_)
        rw [cpa_leaf_top, hT]
        have := hP0 k (le_of_lt hk)
        linarith
      have hbot : min (cpa_leaf_top mlc widths k + cpa_w widths k) jaw.y2 =
          cpa_leaf_top mlc widths k + cpa_w widths k := by
        refine min_eq_left (le_trans ?_ hy2)
        rw [cpa_leaf_top, hT]
        have hsucc : ((List.range (k + 1)).map (cpa_w widths)).sum =
            ((List.range k).map (cpa_w widths)).sum + cpa_w widths k := by
          rw [List.range_succ, List.map_append, List.sum_append]
          simp
        have := hPT (k + 1) (by omega)
        rw [hsucc] at this
        linarith
      rw [htop, hbot]
      have : cpa_leaf_top mlc widths k + cpa_w widths k - cpa_leaf_top mlc widths k =
          cpa_w widths k := by ring
      rw [this]
      exact max_eq_right hwk.le
    have hxfalse : ¬ (jaw.x1 ≠ 0 ∨ jaw.x2 ≠ 0) := by
      rw [hx1, hx2]
      simp
    have hterm : ∀ k < mlc.bank_a.length,
        cpa_term mlc widths jaw k =
          if mlc.bank_b.getD k 0 - mlc.bank_a.getD k 0 ≤ 0 then 0
          else (mlc.bank_b.getD k 0 - mlc.bank_a.getD k 0) * cpa_w widths k := by
      intro k hk
      have hwk : ¬ cpa_w widths k ≤ 0 := not_le.mpr (hwpos k (by omega))
      rw [cpa_term, heff k hk, if_neg hwk, cpa_a, cpa_b, if_neg hxfalse, if_neg hxfalse]
    rw [calculate_aperture_area, if_neg hne, hn, sum_range_map]
    constructor
    · intro hzero k hk
      by_contra hopen
      have hpos : 0 < ∑ k ∈ Finset.range mlc.bank_a.length, cpa_term mlc widths jaw k := by
        refine Finset.sum_pos' (fun j _ => cpa_term_nonneg mlc widths jaw j) ?_
        refine ⟨k, Finset.mem_range.mpr hk, ?_⟩
        rw [hterm k hk, if_neg (not_le.mpr (by linarith [not_le.mp hopen]))]
        have hgap : 0 < mlc.bank_b.getD k 0 - mlc.bank_a.getD k 0 := by
          linarith [not_le.mp hopen]
        exact mul_pos hgap (hwpos k (by omega))
      rw [hzero] at hpos
      exact lt_irrefl 0 hpos
    · intro hall
      refine Finset.sum_eq_zero fun k hk => ?_
      rw [Finset.mem_range] at hk
      rw [hterm k hk, if_pos (by linarith [hall k hk])]

/-- Witness for C6: the amended equivalence at a single 10 mm-wide open pair
with a covering Y jaw, where the area is 200, not 0. -/
theorem aperture_area_zero_iff_witness :
    (calculate_aperture_area (MLCLeafPositions.mk [-10] [10]) [10]
        (JawPositions.mk 0 0 (-5) 5) = 0 ↔
      ∀ k < (MLCLeafPositions.mk [-10] [10]).bank_a.length,
        (MLCLeafPositions.mk [-10] [10]).bank_b.getD k 0 ≤
          (MLCLeafPositions.mk [-10] [10]).bank_a.getD k 0) ∧
      calculate_aperture_area (MLCLeafPositions.mk [-10] [10]) [10]
        (JawPositions.mk 0 0 (-5) 5) = 200 := by
  constructor
  · refine aperture_area_zero_iff (MLCLeafPositions.mk [-10] [10]) [10]
      (JawPositions.mk 0 0 (-5) 5) rfl rfl ?_ rfl rfl (by norm_num) (by norm_num)
    intro i hi
    have h0 : i = 0 := by
      simp only [List.length_singleton] at hi
      omega
    subst h0
    norm_num
  · norm_num [calculate_aperture_area, cpa_term, cpa_eff, cpa_a, cpa_b, cpa_n, cpa_w,
      cpa_leaf_top, cpa_total_width, List.range_succ]

/-! ### The per-bank LSV claim (C7) -/

/-- C7 counterexample.  On positions `[0, 1]` with both leaves active there is
a single adjacent difference, so every difference equals the maximum
difference, yet `calculate_lsv_bank` returns 0, not 1. -/
theorem lsv_bank_equal_diffs_counterexample :
    lsv_diffs [0, 1] [true, true] = [1] ∧
      (lsv_diffs [0, 1] [true, true]).foldl max 0 = 1 ∧
      calculate_lsv_bank [0, 1] [true, true] = 0 := by
  have hidx : active_indices ([0, 1] : List ℚ) [true, true] = [0, 1] := by
    norm_num [active_indices, List.range_succ, List.filter]
  have hd : lsv_diffs [0, 1] [true, true] = [1] := by
    norm_num [lsv_diffs, hidx, List.range_succ]
  refine ⟨hd, by rw [hd]; norm_num, ?_⟩
  rw [calculate_lsv_bank, if_neg (by rw [hidx]; norm_num)]
  rw [hd]
  norm_num

/-- C7 amended.  The per-bank LSV returns exactly 1.0 whenever fewer than 2
leaves are active or all active positions are identical (equivalently, the
maximum adjacent difference is 0); when all differences equal a strictly
positive maximum the function instead returns 0 (see the counterexample). -/
theorem lsv_bank_one_of_uniform (positions : List ℚ) (active_mask : List Bool)
    (h : (active_indices positions active_mask).length < 2 ∨
      ∀ i ∈ active_indices positions active_mask,
        ∀ j ∈ active_indices positions active_mask,
          positions.getD i 0 = positions.getD j 0) :
    calculate_lsv_bank positions active_mask = 1 :=
  calculate_lsv_bank_eq_one positions active_mask h

/-- Witness for C7: three active leaves at the identical position 3. -/
theorem lsv_bank_one_of_uniform_witness :
    (∀ i ∈ active_indices ([3, 3, 3] : List ℚ) [true, true, true],
      ∀ j ∈ active_indices ([3, 3, 3] : List ℚ) [true, true, true],
        ([3, 3, 3] : List ℚ).getD i 0 = ([3, 3, 3] : List ℚ).getD j 0) ∧
      calculate_lsv_bank [3, 3, 3] [true, true, true] = 1 := by
  have hidx : active_indices ([3, 3, 3] : List ℚ) [true, true, true] = [0, 1, 2] := by
    norm_num [active_indices, List.range_succ, List.filter]
  have huni : ∀ i ∈ active_indices ([3, 3, 3] : List ℚ) [true, true, true],
      ∀ j ∈ active_indices ([3, 3, 3] : List ℚ) [true, true, true],
        ([3, 3, 3] : List ℚ).getD i 0 = ([3, 3, 3] : List ℚ).getD j 0 := by
    rw [hidx]
    intro i hi j hj
    fin_cases hi <;> fin_cases hj <;> rfl
  exact ⟨huni, lsv_bank_one_of_uniform [3, 3, 3] [true, true, true] (Or.inr huni)⟩

/-! ### The leaf geometry resolver (C8) -/

/-- C8 counterexample.  On an empty width list and 60 declared pairs the
resolver returns the single boundary `[0]`, not a synthesized 61-boundary
default stack: the loop bound `n = min(len(leaf_widths), num_pairs)` makes the
5 mm default dead code.  `beamC8` (empty widths, no stored boundaries, 60
declared leaves) gets the same `[0]` from `get_effective_leaf_boundaries`. -/
theorem leaf_boundaries_empty_counterexample :
    compute_leaf_boundaries [] 60 = [0] ∧
      get_effective_leaf_boundaries beamC8 = [0] ∧
      (compute_leaf_boundaries [] 60).length ≠ 61 := by
  have h1 : compute_leaf_boundaries [] 60 = [0] := by
    norm_num [compute_leaf_boundaries, List.range_succ]
  refine ⟨h1, ?_, by rw [h1]; norm_num⟩
  rw [get_effective_leaf_boundaries]
  norm_num [beamC8, pyOrNat, h1]

/-- C8 amended.  The resolver never fails and returns
`min(len(widths), num_pairs) + 1` boundary offsets whose first and last sum to
0 (the stack is centered symmetrically about 0); an empty width list yields
the single boundary `[0]`, with no synthesized default stack. -/
theorem leaf_boundaries_shape (widths : List ℚ) (np : ℕ) :
    (compute_leaf_boundaries widths np).length = min widths.length np + 1 ∧
      (compute_leaf_boundaries widths np).getD 0 0 +
        (compute_leaf_boundaries widths np).getD (min widths.length np) 0 = 0 ∧
      (widths = [] → compute_leaf_boundaries widths np = [0]) := by
  have hcomp : compute_leaf_boundaries widths np =
      (List.range (min widths.length np + 1)).map
        (fun i => ((List.range i).map (fun j => widths.getD j 5)).sum -
          ((List.range (min widths.length np)).map (fun j => widths.getD j 5)).sum / 2) := by
    simp only [compute_leaf_boundaries]
    rw [getD_range_map _ _ (Nat.lt_succ_self _), List.map_map]
    congr 1
  refine ⟨by rw [hcomp]; simp, ?_, ?_⟩
  · rw [hcomp, getD_range_map _ _ (by omega : 0 < min widths.length np + 1),
      getD_range_map _ _ (Nat.lt_succ_self _)]
    simp only [List.range_zero, List.map_nil, List.sum_nil]
    ring
  · intro hempty
    subst hempty
    norm_num [hcomp, List.range_succ]

/-- Witness for C8: the shape statement at the empty width list and 60 pairs,
where the resolver returns `[0]`. -/
theorem leaf_boundaries_shape_witness :
    (compute_leaf_boundaries [] 60).length = min ([] : List ℚ).length 60 + 1 ∧
      (compute_leaf_boundaries [] 60).getD 0 0 +
        (compute_leaf_boundaries [] 60).getD (min ([] : List ℚ).length 60) 0 = 0 ∧
      (([] : List ℚ) = [] → compute_leaf_boundaries [] 60 = [0]) :=
  leaf_boundaries_shape [] 60

/-! ### The aperture-modulation engine (metrics.py 1080–1371, claim C10)

The target-polygon side of this engine calls float trigonometry
(`math.sin`/`math.cos` of the gantry angle) and shapely/GEOS predicates (ring
validity, convex hull, polygon areas of general intersections).  Those
numeric primitives are abstracted into a `GeosModel` oracle record, so every
theorem below holds for any implementation of them — in particular the real
one.  The parts the claim depends on are modelled explicitly: the clipped
leaf rectangles of `get_aperture_polygon`, and the fact that
`shapely.ops.unary_union` returns a single `Polygon` (rather than a
`MultiPolygon`, which fails the `isinstance` check on metrics.py 1233)
exactly when the rectangle union is connected through overlaps or shared
edges of positive length — OGC validity forces separated or merely
corner-touching components into a `MultiPolygon`. -/

/-- types.py `Structure`, reduced to its contour point lists. -/
structure Structure where
  contours : List (List (ℚ × ℚ × ℚ))
deriving DecidableEq, Inhabited

/-- types.py `Structure.get_all_points`. -/
def Structure.get_all_points (st : Structure) : List (ℚ × ℚ × ℚ) :=
  st.contours.flatten

/-- A BEV target polygon, as its vertex ring. -/
structure TPoly where
  ring : List (ℚ × ℚ)
deriving DecidableEq, Inhabited

/-- Twice the shoelace area of a closed vertex ring. -/
def ring_area2 (pts : List (ℚ × ℚ)) : ℚ :=
  ((List.range pts.length).map (fun i =>
    (pts.getD i (0, 0)).1 * (pts.getD ((i + 1) % pts.length) (0, 0)).2 -
    (pts.getD ((i + 1) % pts.length) (0, 0)).1 * (pts.getD i (0, 0)).2)).sum

/-- Model of shapely `Polygon.area` for a simple ring: |shoelace| / 2. -/
def TPoly.area (p : TPoly) : ℚ := |ring_area2 p.ring| / 2

/-- An axis-aligned leaf rectangle of `get_aperture_polygon`. -/
structure Rect where
  x1 : ℚ
  x2 : ℚ
  y1 : ℚ
  y2 : ℚ
deriving DecidableEq, Inhabited

/-- The numeric primitives the engine takes from `math` and shapely/GEOS,
abstracted: `sinDeg`/`cosDeg` model `math.sin(math.radians θ)` and
`math.cos(math.radians θ)`; `isValidRing` models `Polygon(...).is_valid`;
`convexHull` models the `convex_hull` repair (`none` when the hull degenerates
below a polygon); `interArea` models `target.intersection(aperture).area`;
`apertureUnionArea` models the union polygon's `.area`. -/
structure GeosModel where
  sinDeg : ℚ → ℚ
  cosDeg : ℚ → ℚ
  isValidRing : List (ℚ × ℚ) → Bool
  convexHull : List (ℚ × ℚ) → Option (List (ℚ × ℚ))
  interArea : TPoly → List Rect → ℚ
  apertureUnionArea : List Rect → ℚ

/-- metrics.py `project_point_to_bev`:
`x_bev = z·sin(gantry) + x·cos(gantry)`, `y_bev = y` (the couch angle is
accepted but not used). -/
def project_point_to_bev (G : GeosModel) (point_3d : ℚ × ℚ × ℚ)
    (gantry_angle_deg couch_angle_deg : ℚ) : ℚ × ℚ :=
  (point_3d.2.2 * G.sinDeg gantry_angle_deg + point_3d.1 * G.cosDeg gantry_angle_deg,
   point_3d.2.1)

/-- metrics.py `contour_to_bev_polygon`: project all points, repair an invalid
ring via the convex hull, reject results with fewer than 3 points or area not
above `1e-6`.  (The `try/except` cannot fire in the exact-arithmetic model.) -/
def contour_to_bev_polygon (G : GeosModel) (contour_points_3d : List (ℚ × ℚ × ℚ))
    (gantry_angle_deg couch_angle_deg : ℚ) : Option TPoly :=
  if contour_points_3d.length < 3 then none
  else
    match
      (fun bev => if G.isValidRing bev then some bev else G.convexHull bev)
        (contour_points_3d.map
          (fun p => project_point_to_bev G p gantry_angle_deg couch_angle_deg)) with
    | none => none
    | some r => if 1/1000000 < TPoly.area ⟨r⟩ then some ⟨r⟩ else none

/-- metrics.py 1191–1222: the clipped positive-area leaf rectangles collected
by `get_aperture_polygon`. -/
def aperture_rects (mlc : MLCLeafPositions) (jaw : JawPositions)
    (leaf_boundaries : List ℚ) : List Rect :=
  ((List.range (min (min mlc.bank_a.length mlc.bank_b.length)
      (leaf_boundaries.length - 1))).map (fun k =>
    let y_lower := leaf_boundaries.getD k 0
    let y_upper := leaf_boundaries.getD (k + 1) 0
    if y_upper < jaw.y1 ∨ y_lower > jaw.y2 then []
    else
      let y_lower_clipped := max y_lower jaw.y1
      let y_upper_clipped := min y_upper jaw.y2
      let x_left_clipped := max (mlc.bank_a.getD k 0) jaw.x1
      let x_right_clipped := min (mlc.bank_b.getD k 0) jaw.x2
      if x_left_clipped < x_right_clipped ∧ y_lower_clipped < y_upper_clipped then
        [Rect.mk x_left_clipped x_right_clipped y_lower_clipped y_upper_clipped]
      else [])).flatten

/-- Two positive-area axis-aligned rectangles merge in a GEOS union when their
closures share a segment of positive length or overlap in 2D; touching in a
single corner point does not merge them (the result would violate OGC polygon
validity and becomes a MultiPolygon component instead). -/
def rect_adjacent (r s : Rect) : Bool :=
  (decide (0 ≤ min r.x2 s.x2 - max r.x1 s.x1) &&
   decide (0 ≤ min r.y2 s.y2 - max r.y1 s.y1)) &&
  (decide (0 < min r.x2 s.x2 - max r.x1 s.x1) ||
   decide (0 < min r.y2 s.y2 - max r.y1 s.y1))

/-- One breadth-first expansion of the set of rectangles reachable from the
first rectangle through `rect_adjacent`. -/
def grow (rs : List Rect) (reached : List Bool) : List Bool :=
  (List.range rs.length).map (fun i =>
    reached.getD i false ||
    (List.range rs.length).any (fun j =>
      reached.getD j false && rect_adjacent (rs.getD j default) (rs.getD i default)))

/-- The rectangles reachable from the first one (fixpoint after `rs.length`
expansions). -/
def reach_set (rs : List Rect) : List Bool :=
  Nat.iterate (grow rs) rs.length ((List.range rs.length).map (fun i => decide (i = 0)))

/-- Whether the union of the rectangles is a single connected polygon. -/
def rects_connected (rs : List Rect) : Bool :=
  (List.range rs.length).all (fun i => (reach_set rs).getD i false)

/-- metrics.py `get_aperture_polygon`: one clipped rectangle per open leaf,
`None` when no rectangle remains, the single rectangle when there is one, and
otherwise the `unary_union` — which is a `Polygon` (kept) exactly when the
union is connected, and a `MultiPolygon` (discarded by the `isinstance` check
on line 1233, returning `None`) otherwise.  The aperture polygon is carried as
its rectangle list. -/
def get_aperture_polygon (mlc : MLCLeafPositions) (jaw : JawPositions)
    (leaf_boundaries : List ℚ) : Option (List Rect) :=
  let rects := aperture_rects mlc jaw leaf_boundaries
  if rects.isEmpty then none
  else if rects.length = 1 then some rects
  else if rects_connected rects then some rects else none

/-- metrics.py `calculate_aperture_modulation`: blocked target fraction,
clamped to `[0, 1]`.  (A GEOS union of valid rectangles is valid, so the
aperture `is_valid` guard on line 1260 is modelled as passing.) -/
def calculate_aperture_modulation (G : GeosModel) (target_polygon : TPoly)
    (aperture_polygon : List Rect) : ℚ :=
  if ¬ G.isValidRing target_polygon.ring ∨ target_polygon.area < 1/1000000 then 0
  else if G.apertureUnionArea aperture_polygon < 1/1000000 then 1
  else
    max 0 (min 1
      (if 0 < target_polygon.area
       then 1 - G.interArea target_polygon aperture_polygon / target_polygon.area
       else 1))

/-- metrics.py `calculate_pam_control_point`: AM at one control point; `None`
when the structure, index or target projection is unusable, `1.0` (fully
blocked) when no aperture polygon exists. -/
def calculate_pam_control_point (G : GeosModel) (st : Structure) (beam : Beam)
    (cp_index : ℕ) (couch_angle : ℚ) : Option ℚ :=
  if st.contours.isEmpty ∨ beam.control_points.length ≤ cp_index then none
  else
    if st.get_all_points.length < 3 then none
    else
      match contour_to_bev_polygon G st.get_all_points
          (cp_at beam cp_index).gantry_angle couch_angle with
      | none => none
      | some target_poly =>
        if target_poly.area < 1/1000000 then none
        else
          match get_aperture_polygon (cp_at beam cp_index).mlc_positions
              (cp_at beam cp_index).jaw_positions
              (get_effective_leaf_boundaries beam) with
          | none => some 1
          | some aperture_poly =>
              some (calculate_aperture_modulation G target_poly aperture_poly)

lemma contour_to_bev_polygon_some {G : GeosModel} {pts : List (ℚ × ℚ × ℚ)}
    {g c : ℚ} {tp : TPoly} (h : contour_to_bev_polygon G pts g c = some tp) :
    ¬ pts.length < 3 ∧ 1/1000000 < tp.area := by
  rw [contour_to_bev_polygon] at h
  by_cases h3 : pts.length < 3
  · rw [if_pos h3] at h
    exact absurd h (by simp)
  · rw [if_neg h3] at h
    refine ⟨h3, ?_⟩
    split at h
    · exact absurd h (by simp)
    · split_ifs at h with ha
      obtain rfl : TPoly.mk _ = tp := Option.some.inj h
      exact ha

lemma rects_connected_singleton (r : Rect) : rects_connected [r] = true := by
  simp [rects_connected, reach_set, grow, Nat.iterate, List.range_succ]

/-- C10.  When a control point's positive-area leaf rectangles union into a
disconnected region, `get_aperture_polygon` returns `None` even though open
leaves exist, and `calculate_pam_control_point` then reports AM = 1.0 (fully
blocked) for that control point; in general an aperture polygon is produced
exactly when at least one rectangle exists and the union is connected. -/
theorem aperture_polygon_connectivity (G : GeosModel) (st : Structure)
    (beam : Beam) (cp_index : ℕ) (couch : ℚ) (tp : TPoly)
    (hc : st.contours.isEmpty = false)
    (hi : cp_index < beam.control_points.length)
    (ht : contour_to_bev_polygon G st.get_all_points
      (cp_at beam cp_index).gantry_angle couch = some tp)
    (hr : aperture_rects (cp_at beam cp_index).mlc_positions
      (cp_at beam cp_index).jaw_positions (get_effective_leaf_boundaries beam) ≠ [])
    (hd : rects_connected (aperture_rects (cp_at beam cp_index).mlc_positions
      (cp_at beam cp_index).jaw_positions (get_effective_leaf_boundaries beam)) = false) :
    get_aperture_polygon (cp_at beam cp_index).mlc_positions
        (cp_at beam cp_index).jaw_positions (get_effective_leaf_boundaries beam) = none ∧
      calculate_pam_control_point G st beam cp_index couch = some 1 ∧
      ∀ (mlc : MLCLeafPositions) (jaw : JawPositions) (bounds : List ℚ),
        (get_aperture_polygon mlc jaw bounds).isSome = true ↔
          (aperture_rects mlc jaw bounds ≠ [] ∧
            rects_connected (aperture_rects mlc jaw bounds) = true) := by
  obtain ⟨h3, harea⟩ := contour_to_bev_polygon_some ht
  have hgen : ∀ (mlc : MLCLeafPositions) (jaw : JawPositions) (bounds : List ℚ),
      (get_aperture_polygon mlc jaw bounds).isSome = true ↔
        (aperture_rects mlc jaw bounds ≠ [] ∧
          rects_connected (aperture_rects mlc jaw bounds) = true) := by
    intro mlc jaw bounds
    rw [get_aperture_polygon]
    by_cases he : aperture_rects mlc jaw bounds = []
    · simp [he]
    · by_cases h1 : (aperture_rects mlc jaw bounds).length = 1
      · obtain ⟨r, hr1⟩ := List.length_eq_one.mp h1
        simp [he, h1, hr1, rects_connected_singleton r]
      · by_cases hcon : rects_connected (aperture_rects mlc jaw bounds) = true
        · simp [he, h1, hcon]
        · simp [he, h1, hcon]
  have hnone : get_aperture_polygon (cp_at beam cp_index).mlc_positions
      (cp_at beam cp_index).jaw_positions (get_effective_leaf_boundaries beam) = none := by
    cases hgap : get_aperture_polygon (cp_at beam cp_index).mlc_positions
        (cp_at beam cp_index).jaw_positions (get_effective_leaf_boundaries beam) with
    | none => rfl
    | some v =>
        have : rects_connected (aperture_rects (cp_at beam cp_index).mlc_positions
            (cp_at beam cp_index).jaw_positions (get_effective_leaf_boundaries beam)) = true :=
          ((hgen _ _ _).mp (by rw [hgap]; rfl)).2
        rw [hd] at this
        exact absurd this (by simp)
  refine ⟨hnone, ?_, hgen⟩
  rw [calculate_pam_control_point,
    if_neg (by rw [hc]; simp [not_le.mpr hi]),
    if_neg h3, ht]
  simp only [if_neg (lt_asymm harea), hnone]

/-- A concrete instance of the geometric oracle: gantry angle 0 (`sin = 0`,
`cos = 1`), every ring valid, and arbitrary values for the members the
witness never reaches. -/
def geosC10 : GeosModel :=
  { sinDeg := fun _ => 0
    cosDeg := fun _ => 1
    isValidRing := fun _ => true
    convexHull := fun _ => none
    interArea := fun _ _ => 0
    apertureUnionArea := fun _ => 0 }

/-- A square target contour at isocenter. -/
def structC10 : Structure :=
  ⟨[[(-5, -5, 0), (5, -5, 0), (5, 5, 0), (-5, 5, 0)]]⟩

/-- A single-control-point beam whose middle leaf pair is closed, splitting
the aperture into two separated openings. -/
def beamC10 : Beam :=
  { number_of_control_points := 1
    control_points :=
      [{ index := 0, gantry_angle := 0, cumulative_meterset_weight := 1,
         mlc_positions := { bank_a := [-10, 0, -10], bank_b := [10, 0, 10] },
         jaw_positions := { x1 := -20, x2 := 20, y1 := -15, y2 := 15 } }]
    beam_dose := some 100
    gantry_angle_start := 0
    gantry_angle_end := 0
    is_arc := false
    mlc_leaf_widths := [10, 10, 10]
    mlc_leaf_boundaries := [-15, -5, 5, 15]
    number_of_leaves := 3 }

/-- The BEV projection of the square target at gantry 0. -/
def tpC10 : TPoly := ⟨[(-5, -5), (5, -5), (5, 5), (-5, 5)]⟩

/-- Witness for C10: `beamC10` has two separated openings, so the aperture
polygon is `None` and the control-point AM is 1.0. -/
theorem aperture_polygon_connectivity_witness :
    (aperture_rects (cp_at beamC10 0).mlc_positions (cp_at beamC10 0).jaw_positions
        (get_effective_leaf_boundaries beamC10) ≠ [] ∧
      rects_connected (aperture_rects (cp_at beamC10 0).mlc_positions
        (cp_at beamC10 0).jaw_positions (get_effective_leaf_boundaries beamC10)) = false) ∧
      (get_aperture_polygon (cp_at beamC10 0).mlc_positions
          (cp_at beamC10 0).jaw_positions (get_effective_leaf_boundaries beamC10) = none ∧
        calculate_pam_control_point geosC10 structC10 beamC10 0 0 = some 1 ∧
        ∀ (mlc : MLCLeafPositions) (jaw : JawPositions) (bounds : List ℚ),
          (get_aperture_polygon mlc jaw bounds).isSome = true ↔
            (aperture_rects mlc jaw bounds ≠ [] ∧
              rects_connected (aperture_rects mlc jaw bounds) = true)) := by
  have hmlc : (cp_at beamC10 0).mlc_positions =
      { bank_a := [-10, 0, -10], bank_b := [10, 0, 10] } := rfl
  have hjaw : (cp_at beamC10 0).jaw_positions =
      { x1 := -20, x2 := 20, y1 := -15, y2 := 15 } := rfl
  have hb : get_effective_leaf_boundaries beamC10 = [-15, -5, 5, 15] := rfl
  have hrects : aperture_rects (cp_at beamC10 0).mlc_positions
      (cp_at beamC10 0).jaw_positions (get_effective_leaf_boundaries beamC10) =
      [Rect.mk (-10) 10 (-15) (-5), Rect.mk (-10) 10 5 15] := by
    norm_num [aperture_rects, hmlc, hjaw, hb, List.range_succ]
  have hconn : rects_connected [Rect.mk (-10) 10 (-15) (-5), Rect.mk (-10) 10 5 15] =
      false := by
    norm_num [rects_connected, reach_set, grow, rect_adjacent, Nat.iterate,
      List.range_succ]
  have ht : contour_to_bev_polygon geosC10 structC10.get_all_points
      (cp_at beamC10 0).gantry_angle 0 = some tpC10 := by
    norm_num [contour_to_bev_polygon, project_point_to_bev, geosC10,
      Structure.get_all_points, structC10, TPoly.area, ring_area2, tpC10,
      List.range_succ]
  refine ⟨⟨by rw [hrects]; simp, by rw [hrects]; exact hconn⟩, ?_⟩
  exact aperture_polygon_connectivity geosC10 structC10 beamC10 0 0 tpC10 rfl
    (by norm_num [beamC10]) ht (by rw [hrects]; simp) (by rw [hrects]; exact hconn)

end RTC
